import Mathlib

/-!
# Temperature sensor publication engine (`sensor_temperature.c`)

A shallow embedding of the cadence / publication logic of the mesh temperature
sensor application: the sampler `mesh_sensor_get_temperature_8`, the timer
callback `mesh_sensor_publish_timer_callback`, the timer programming in
`mesh_sensor_server_restart_timer`, and the notification handlers that the mesh
library calls into.

Machine integers are mathematical integers with the C conversions written out:
`u32` is the conversion to `uint32_t`, `i32` the conversion to `int32_t`, `i8`
the conversion to `int8_t` (two's complement, 32-bit `int`, as on the Cortex-M
targets of the application).  A division whose divisor is zero has no defined
result in C; the embedding returns `none` there.

The declaration of `wiced_bt_mesh_sensor_config_cadence_t` lives in the SDK
header `wiced_bt_mesh_cfg.h`, which is not among the sources of the
application.  Its trigger deltas, minimum interval and fast cadence bounds are
taken to be `uint32_t`, as in that header, so a comparison of the `int8_t`
sample with one of these fields is an unsigned 32-bit comparison.  Trace
statements are left out; those of the percentage test divide by the same
divisor as the test itself.
-/

namespace SensorTemperature

/-! ## C integer conversions -/

/-- Conversion of an integer value to `uint32_t`: reduction modulo `2^32`. -/
def u32 (x : Int) : Nat := (x % 4294967296).toNat

/-- Conversion of an integer value to `int32_t` (two's complement wrap). -/
def i32 (x : Int) : Int := (x + 2147483648) % 4294967296 - 2147483648

/-- Conversion of an integer value to `int8_t` (two's complement wrap). -/
def i8 (x : Int) : Int := (x + 128) % 256 - 128

/-- Addition of two `uint32_t` operands. -/
def u32_add (a b : Nat) : Nat := (a + b) % 4294967296

/-- Subtraction of two `uint32_t` operands. -/
def u32_sub (a b : Nat) : Nat := u32 ((a : Int) - (b : Int))

/-- Multiplication of two `uint32_t` operands. -/
def u32_mul (a b : Nat) : Nat := (a * b) % 4294967296

/-- Division of two `uint32_t` operands; undefined (no result) for a zero divisor. -/
def u32_div (a b : Nat) : Option Nat := if b = 0 then none else some (a / b)

/-! ## Data -/

/-- The cadence record of a sensor (`wiced_bt_mesh_sensor_config_cadence_t`). -/
structure Cadence where
  fast_cadence_period_divisor : Nat
  trigger_type_percentage : Bool
  trigger_delta_down : Nat
  trigger_delta_up : Nat
  min_interval : Nat
  fast_cadence_low : Nat
  fast_cadence_high : Nat
  deriving DecidableEq, Repr

/-- The module state: the global variables of the application, the cadence of
`mesh_element1_sensors[0]`, the cadence timer (`none` when stopped, `some t`
when started with timeout `t`), the cadence record kept in NVRAM, and the list
of values handed to the sensor model by `wiced_bt_mesh_model_sensor_server_data`
(the content of the data buffer `mesh_sensor_sent_value` at the time of each
call, oldest first). -/
structure State where
  cadence : Cadence
  mesh_sensor_current_value : Int
  mesh_sensor_sent_value : Int
  mesh_sensor_pub_value : Int
  mesh_sensor_pub_time : Nat
  mesh_sensor_publish_period : Nat
  mesh_sensor_fast_publish_period : Nat
  mesh_sensor_cadence_timer : Option Nat
  nvram_cadence : Option Cadence
  sensor_server_data : List Int
  deriving DecidableEq, Repr

/-- The global `mesh_sensor_measure_min_interval` (never written). -/
def mesh_sensor_measure_min_interval : Nat := 3000

/-- The index `MESH_TEMPERATURE_SENSOR_INDEX`. -/
def MESH_TEMPERATURE_SENSOR_INDEX : Nat := 0

/-- The index `MESH_SENSOR_SERVER_ELEMENT_INDEX`. -/
def MESH_SENSOR_SERVER_ELEMENT_INDEX : Nat := 0

/-- The static initialiser of `mesh_element1_sensors[0].cadence`. -/
def default_cadence : Cadence where
  fast_cadence_period_divisor := 1
  trigger_type_percentage := false
  trigger_delta_down := 0
  trigger_delta_up := 0
  min_interval := 4096
  fast_cadence_low := 0
  fast_cadence_high := 0

/-- The state given by the static initialisers of the module, with the NVRAM
content found at power up. -/
def boot_state (nvram : Option Cadence) : State where
  cadence := default_cadence
  mesh_sensor_current_value := 42
  mesh_sensor_sent_value := 0
  mesh_sensor_pub_value := 0
  mesh_sensor_pub_time := 0
  mesh_sensor_publish_period := 0
  mesh_sensor_fast_publish_period := 0
  mesh_sensor_cadence_timer := none
  nvram_cadence := nvram
  sensor_server_data := []

/-! ## Sampler -/

/-- The conversion of `mesh_sensor_get_temperature_8`, as a function of the
value `temp_celsius_100` returned by `thermistor_read` (hundredths of a degree).
The `return` statements convert to the return type `int8_t`; the division is C
integer division (truncation toward zero). -/
def mesh_sensor_get_temperature_8 (temp_celsius_100 : Int) : Int :=
  if temp_celsius_100 < -6400 then
    i8 0x80
  else if temp_celsius_100 ≥ 6350 then
    i8 0x7F
  else
    i8 (Int.tdiv temp_celsius_100 50)

/-! ## Timer programming -/

/-- The function `mesh_sensor_server_restart_timer`: stops the cadence timer,
computes the timeout (recomputing `mesh_sensor_fast_publish_period` when a
publish period is set) and starts the timer with it. -/
def mesh_sensor_server_restart_timer (s : State) : State :=
  let timeout := s.mesh_sensor_publish_period
  if s.mesh_sensor_publish_period = 0 then
    let timeout :=
      if s.cadence.min_interval < mesh_sensor_measure_min_interval then s.cadence.min_interval
      else mesh_sensor_measure_min_interval
    { s with mesh_sensor_cadence_timer := some timeout }
  else
    let fast :=
      if s.cadence.fast_cadence_period_divisor > 1 then
        s.mesh_sensor_publish_period / s.cadence.fast_cadence_period_divisor
      else 0
    let timeout := if s.cadence.fast_cadence_period_divisor > 1 then fast else timeout
    let timeout :=
      if s.cadence.min_interval < timeout ∧
          (s.cadence.trigger_delta_up ≠ 0 ∨ s.cadence.trigger_delta_down ≠ 0) then
        s.cadence.min_interval
      else timeout
    { s with mesh_sensor_fast_publish_period := fast, mesh_sensor_cadence_timer := some timeout }

/-! ## Publication decision -/

/-- The native (unit) trigger test of the timer callback:
`(int32_t)cur >= (int32_t)(pub + delta_up)` or
`(int32_t)cur <= (int32_t)(pub - delta_down)`, the sums being formed in
`uint32_t` after the usual arithmetic conversions. -/
def native_trigger (c : Cadence) (cur pub : Int) : Bool :=
  (decide (c.trigger_delta_up ≠ 0) &&
      decide (i32 cur ≥ i32 (u32_add (u32 pub) c.trigger_delta_up))) ||
  (decide (c.trigger_delta_down ≠ 0) &&
      decide (i32 cur ≤ i32 (u32_sub (u32 pub) c.trigger_delta_down)))

/-- The percentage trigger test of the timer callback.  The quotient
`(uint32_t)(cur - pub) * 10000 / cur` is an unsigned 32-bit division by the
converted sample; it has no result when the sample is zero. -/
def percent_trigger (c : Cadence) (cur pub : Int) : Option Bool :=
  if c.trigger_delta_up ≠ 0 ∧ cur > pub then
    match u32_div (u32_mul (u32 (cur - pub)) 10000) (u32 cur) with
    | none => none
    | some q => some (decide (q > c.trigger_delta_up))
  else if c.trigger_delta_down ≠ 0 ∧ cur < pub then
    match u32_div (u32_mul (u32 (pub - cur)) 10000) (u32 cur) with
    | none => none
    | some q => some (decide (q > c.trigger_delta_down))
  else
    some false

/-- The block of the callback guarded by
`!pub_needed && (trigger_delta_up != 0 || trigger_delta_down != 0)`; the result
is the value of `pub_needed` after the block. -/
def delta_stage (c : Cadence) (cur pub : Int) (pub_needed : Bool) : Option Bool :=
  if pub_needed = false ∧ (c.trigger_delta_up ≠ 0 ∨ c.trigger_delta_down ≠ 0) then
    if c.trigger_type_percentage = false then
      some (if native_trigger c cur pub then true else pub_needed)
    else
      match percent_trigger c cur pub with
      | none => none
      | some fired => some (if fired then true else pub_needed)
  else
    some pub_needed

/-- The block of the callback guarded by
`!pub_needed && (mesh_sensor_fast_publish_period != 0)`: the fast cadence
window, compared in `uint32_t`. -/
def fast_stage (c : Cadence) (fast_period elapsed : Nat) (cur : Int) (pub_needed : Bool) : Bool :=
  if pub_needed = false ∧ fast_period ≠ 0 then
    if elapsed ≥ fast_period then
      if c.fast_cadence_high > c.fast_cadence_low then
        if u32 cur > c.fast_cadence_low ∧ u32 cur ≤ c.fast_cadence_high then true else pub_needed
      else if c.fast_cadence_high < c.fast_cadence_low then
        if u32 cur > c.fast_cadence_low ∨ u32 cur < c.fast_cadence_high then true else pub_needed
      else
        if u32 cur = c.fast_cadence_low then true else pub_needed
    else pub_needed
  else pub_needed

/-- The block of the callback guarded by
`!pub_needed && (period == 0) && (trigger_delta_up == 0) && (trigger_delta_down == 0)`. -/
def change_stage (c : Cadence) (period : Nat) (cur pub : Int) (pub_needed : Bool) : Bool :=
  if pub_needed = false ∧ period = 0 ∧ c.trigger_delta_up = 0 ∧ c.trigger_delta_down = 0 then
    if cur ≠ pub then true else pub_needed
  else pub_needed

/-- The value of `pub_needed` at the end of the `else` branch of the callback
(elapsed time not below `min_interval`), for the sample `cur`. -/
def pub_needed_after (s : State) (elapsed : Nat) (cur : Int) : Option Bool :=
  let pub_needed : Bool :=
    decide (s.mesh_sensor_publish_period ≠ 0 ∧ elapsed ≥ s.mesh_sensor_publish_period)
  match delta_stage s.cadence cur s.mesh_sensor_pub_value pub_needed with
  | none => none
  | some pub_needed =>
    let pub_needed :=
      fast_stage s.cadence s.mesh_sensor_fast_publish_period elapsed cur pub_needed
    some (change_stage s.cadence s.mesh_sensor_publish_period cur s.mesh_sensor_pub_value pub_needed)

/-- The block of the callback guarded by `if (pub_needed)`: the sample becomes
the sent and the published value, the tick count the publish time, and the
sensor model is told to send the content of its data buffer. -/
def send_publication (s : State) (cur_time : Nat) : State :=
  let s1 :=
    { s with
      mesh_sensor_sent_value := s.mesh_sensor_current_value
      mesh_sensor_pub_value := s.mesh_sensor_current_value
      mesh_sensor_pub_time := cur_time }
  { s1 with sensor_server_data := s1.sensor_server_data ++ [s1.mesh_sensor_sent_value] }

/-- The timer callback `mesh_sensor_publish_timer_callback`, as a function of
the state, the tick count `cur_time` read at entry and the thermistor reading
`temp_celsius_100` taken by the sampler.  The result is the state at return
(after the timer has been restarted) together with the final value of
`pub_needed`; it is `none` when the callback executes a division by zero. -/
def mesh_sensor_publish_timer_callback (s : State) (cur_time : Nat) (temp_celsius_100 : Int) :
    Option (State × Bool) :=
  let s1 := { s with mesh_sensor_current_value := mesh_sensor_get_temperature_8 temp_celsius_100 }
  let elapsed := u32_sub cur_time s1.mesh_sensor_pub_time
  if elapsed < s1.cadence.min_interval then
    some (mesh_sensor_server_restart_timer s1, false)
  else
    match pub_needed_after s1 elapsed s1.mesh_sensor_current_value with
    | none => none
    | some pub_needed =>
      let s2 := if pub_needed then send_publication s1 cur_time else s1
      some (mesh_sensor_server_restart_timer s2, pub_needed)

/-! ## Entry points called by the mesh library -/

/-- Identifiers defined by SDK headers outside the application sources
(`MESH_COMPANY_ID_BT_SIG`, `WICED_BT_MESH_CORE_MODEL_ID_SENSOR_SRV`), taken as
parameters. -/
structure SdkIds where
  MESH_COMPANY_ID_BT_SIG : Nat
  WICED_BT_MESH_CORE_MODEL_ID_SENSOR_SRV : Nat
  deriving DecidableEq, Repr

/-- The function `mesh_app_init`, applied to the state at power up, with the
tick count read at entry and the thermistor reading of the initial sample.
Unprovisioned, only advertising data are set up.  Provisioned, the first sample
is taken, the cadence is restored from NVRAM when a record is present, the
published value and time are set, and the sensor model is told to send the
content of its data buffer. -/
def mesh_app_init (s : State) (is_provisioned : Bool) (cur_time : Nat) (temp_celsius_100 : Int) :
    State :=
  if is_provisioned = false then s
  else
    let s1 := { s with mesh_sensor_current_value := mesh_sensor_get_temperature_8 temp_celsius_100 }
    let s2 := { s1 with mesh_sensor_cadence_timer := none }
    let s3 :=
      match s2.nvram_cadence with
      | some c => { s2 with cadence := c }
      | none => s2
    let s4 :=
      { s3 with
        mesh_sensor_pub_value := s3.mesh_sensor_current_value
        mesh_sensor_pub_time := cur_time }
    { s4 with sensor_server_data := s4.sensor_server_data ++ [s4.mesh_sensor_sent_value] }

/-- The function `mesh_app_notify_period_set`: the new state and the returned
boolean. -/
def mesh_app_notify_period_set (k : SdkIds) (s : State)
    (element_idx company_id model_id period : Nat) : State × Bool :=
  if element_idx ≠ MESH_TEMPERATURE_SENSOR_INDEX ∨ company_id ≠ k.MESH_COMPANY_ID_BT_SIG ∨
      model_id ≠ k.WICED_BT_MESH_CORE_MODEL_ID_SENSOR_SRV then
    (s, false)
  else
    (mesh_sensor_server_restart_timer { s with mesh_sensor_publish_period := period }, true)

/-- The function `mesh_app_factory_reset`: deletes the cadence record in NVRAM. -/
def mesh_app_factory_reset (s : State) : State :=
  { s with nvram_cadence := none }

/-- The function `mesh_sensor_server_process_cadence_changed`: saves the cadence
of the sensor to NVRAM and restarts the timer.  The device has one element;
another element index addresses no sensor (no result). -/
def mesh_sensor_server_process_cadence_changed (s : State) (element_idx : Nat) : Option State :=
  if element_idx = MESH_SENSOR_SERVER_ELEMENT_INDEX then
    some (mesh_sensor_server_restart_timer { s with nvram_cadence := some s.cadence })
  else none

/-- The function `mesh_sensor_server_process_setting_changed`: a trace only. -/
def mesh_sensor_server_process_setting_changed (s : State) : State := s

/-- The events dispatched by `mesh_sensor_server_config_change_handler`. -/
inductive ConfigEvent where
  | WICED_BT_MESH_SENSOR_CADENCE_STATUS
  | WICED_BT_MESH_SENSOR_SETTING_STATUS
  | other
  deriving DecidableEq, Repr

/-- The function `mesh_sensor_server_config_change_handler`. -/
def mesh_sensor_server_config_change_handler (s : State) (element_idx : Nat) (event : ConfigEvent) :
    Option State :=
  match event with
  | .WICED_BT_MESH_SENSOR_CADENCE_STATUS => mesh_sensor_server_process_cadence_changed s element_idx
  | .WICED_BT_MESH_SENSOR_SETTING_STATUS => some (mesh_sensor_server_process_setting_changed s)
  | .other => some s

/-- The events dispatched by `mesh_sensor_server_report_handler`. -/
inductive ReportEvent where
  | WICED_BT_MESH_SENSOR_GET
  | WICED_BT_MESH_SENSOR_COLUMN_GET
  | WICED_BT_MESH_SENSOR_SERIES_GET
  | other
  deriving DecidableEq, Repr

/-- The function `mesh_sensor_server_report_handler`; `temp_celsius_100` is the
thermistor reading taken when the event is a GET. -/
def mesh_sensor_server_report_handler (s : State) (event : ReportEvent) (temp_celsius_100 : Int) :
    State :=
  match event with
  | .WICED_BT_MESH_SENSOR_GET =>
    let s1 := { s with mesh_sensor_sent_value := mesh_sensor_get_temperature_8 temp_celsius_100 }
    { s1 with sensor_server_data := s1.sensor_server_data ++ [s1.mesh_sensor_sent_value] }
  | _ => s

/-! ## Operations after initialisation -/

/-- The operations the environment performs on the module after
initialisation.  A cadence change is the mesh library storing the new cadence
into the sensor configuration and then calling the configuration change handler
with the cadence status event. -/
inductive Op where
  | timer (cur_time : Nat) (temp_celsius_100 : Int)
  | period_set (element_idx company_id model_id period : Nat)
  | cadence_set (element_idx : Nat) (c : Cadence)
  | config_change (element_idx : Nat) (event : ConfigEvent)
  | report (event : ReportEvent) (temp_celsius_100 : Int)
  | factory_reset
  deriving DecidableEq, Repr

/-- One operation on the module state; `none` when the operation has no defined
result. -/
def step (k : SdkIds) (s : State) : Op → Option State
  | .timer cur_time temp_celsius_100 =>
    (mesh_sensor_publish_timer_callback s cur_time temp_celsius_100).map Prod.fst
  | .period_set element_idx company_id model_id period =>
    some (mesh_app_notify_period_set k s element_idx company_id model_id period).1
  | .cadence_set element_idx c =>
    mesh_sensor_server_config_change_handler { s with cadence := c } element_idx
      .WICED_BT_MESH_SENSOR_CADENCE_STATUS
  | .config_change element_idx event => mesh_sensor_server_config_change_handler s element_idx event
  | .report event temp_celsius_100 => some (mesh_sensor_server_report_handler s event temp_celsius_100)
  | .factory_reset => some (mesh_app_factory_reset s)

/-- Whether an operation is a timer callback that ends with `pub_needed` set. -/
def publishes (s : State) : Op → Bool
  | .timer cur_time temp_celsius_100 =>
    match mesh_sensor_publish_timer_callback s cur_time temp_celsius_100 with
    | some (_, pub_needed) => pub_needed
    | none => false
  | _ => false

/-- The states of the module after provisioned initialisation from power up,
followed by any sequence of operations. -/
inductive Reachable (k : SdkIds) : State → Prop where
  | init (nvram : Option Cadence) (cur_time : Nat) (temp_celsius_100 : Int) :
      Reachable k (mesh_app_init (boot_state nvram) true cur_time temp_celsius_100)
  | step (s s' : State) (op : Op) : Reachable k s → step k s op = some s' → Reachable k s'

/-- The publication state of the specification: last published value, last
publish time, configured publish period, derived fast period. -/
def publication_state (s : State) : Int × Nat × Nat × Nat :=
  (s.mesh_sensor_pub_value, s.mesh_sensor_pub_time, s.mesh_sensor_publish_period,
    s.mesh_sensor_fast_publish_period)


/-- The value `mesh_sensor_server_restart_timer` gives to
`mesh_sensor_fast_publish_period` when a publish period is set. -/
def derived_fast_period (c : Cadence) (period : Nat) : Nat :=
  if c.fast_cadence_period_divisor > 1 then period / c.fast_cadence_period_divisor else 0

/-- Consistency of the fast period: with a publish period set, the stored fast
period is the one the timer restart derives from the period and the divisor. -/
def fast_period_consistent (s : State) : Prop :=
  s.mesh_sensor_publish_period ≠ 0 →
    s.mesh_sensor_fast_publish_period = derived_fast_period s.cadence s.mesh_sensor_publish_period

/-! ## Example states -/

/-- A cadence with the default minimum interval and the given trigger and
window settings. -/
def example_cadence (divisor : Nat) (percentage : Bool) (down up low high : Nat) : Cadence where
  fast_cadence_period_divisor := divisor
  trigger_type_percentage := percentage
  trigger_delta_down := down
  trigger_delta_up := up
  min_interval := 4096
  fast_cadence_low := low
  fast_cadence_high := high

/-- A state whose last publication was the value `pub` at tick 1000. -/
def example_state (c : Cadence) (pub : Int) (period fast : Nat) : State where
  cadence := c
  mesh_sensor_current_value := pub
  mesh_sensor_sent_value := pub
  mesh_sensor_pub_value := pub
  mesh_sensor_pub_time := 1000
  mesh_sensor_publish_period := period
  mesh_sensor_fast_publish_period := fast
  mesh_sensor_cadence_timer := none
  nvram_cadence := none
  sensor_server_data := []

/-- Example values of the SDK identifiers. -/
def example_ids : SdkIds := ⟨65535, 4352⟩

/-- The state after provisioned initialisation at tick 1000 with a reading of
20.00 degrees and no cadence record in NVRAM. -/
def example_init : State := mesh_app_init (boot_state none) true 1000 2000

/-- The state `example_init` after a cadence change to divisor 2 and fast window
10..50. -/
def example_after_cadence : State where
  cadence := example_cadence 2 false 0 0 10 50
  mesh_sensor_current_value := 40
  mesh_sensor_sent_value := 0
  mesh_sensor_pub_value := 40
  mesh_sensor_pub_time := 1000
  mesh_sensor_publish_period := 0
  mesh_sensor_fast_publish_period := 0
  mesh_sensor_cadence_timer := some 3000
  nvram_cadence := some (example_cadence 2 false 0 0 10 50)
  sensor_server_data := [0]

/-- The state `example_after_cadence` after the publish period is set to ten
seconds. -/
def example_configured : State where
  cadence := example_cadence 2 false 0 0 10 50
  mesh_sensor_current_value := 40
  mesh_sensor_sent_value := 0
  mesh_sensor_pub_value := 40
  mesh_sensor_pub_time := 1000
  mesh_sensor_publish_period := 10000
  mesh_sensor_fast_publish_period := 5000
  mesh_sensor_cadence_timer := some 5000
  nvram_cadence := some (example_cadence 2 false 0 0 10 50)
  sensor_server_data := [0]

/-- The state `example_configured` after a timer callback at tick 6000 with a
reading of 2.50 degrees, which does not publish. -/
def example_polled : State :=
  { example_configured with mesh_sensor_current_value := 5 }

/-- A state with unit triggers of 4 in both directions, no period, published
value 40. -/
def example_native : State := example_state (example_cadence 1 false 4 4 0 0) 40 0 0

/-- A state with a percentage trigger of 5.00 % upward, no period, published
value `pub`. -/
def example_percent (pub : Int) : State :=
  example_state (example_cadence 1 true 0 500 0 0) pub 0 0

/-- A state with a ten second period, divisor 2 (fast period five seconds), no
triggers, and the fast window `low`, `high`. -/
def example_window (low high : Nat) : State :=
  example_state (example_cadence 2 false 0 0 low high) 40 10000 5000

/-- A state with no period, no triggers, no fast period, published value 20. -/
def example_change : State := example_state (example_cadence 1 false 0 0 0 0) 20 0 0

/-- The next timeout as the specification words it, for a non-zero publish
period: start from the period; take the derived fast period (0 if the divisor is
at most 1, else period / divisor) if it is non-zero; then take the minimum
interval if a delta trigger is configured and the minimum interval is smaller
than the timeout so far. -/
def spec_next_timeout (c : Cadence) (period : Nat) : Nat :=
  let derived := if c.fast_cadence_period_divisor ≤ 1 then 0
    else period / c.fast_cadence_period_divisor
  let timeout := period
  let timeout := if derived ≠ 0 then derived else timeout
  if (c.trigger_delta_up ≠ 0 ∨ c.trigger_delta_down ≠ 0) ∧ c.min_interval < timeout then
    c.min_interval
  else timeout

/-- A state with a publish period of 100 ms and the fast cadence divisor 128,
no triggers. -/
def example_small_period : State :=
  example_state (example_cadence 128 false 0 0 0 0) 40 100 0

/-- A state with no publish period and a minimum interval of one second. -/
def example_short_interval : State :=
  { example_change with cadence := { example_change.cadence with min_interval := 1000 } }

/-- The fast window test of the callback on the converted sample: inside
`low < sample ≤ high` when `high > low`, outside `high ≤ sample ≤ low` when
`high < low`, equal to `low` when the bounds are equal. -/
def fast_window_test (c : Cadence) (cur : Int) : Prop :=
  (c.fast_cadence_high > c.fast_cadence_low ∧
      u32 cur > c.fast_cadence_low ∧ u32 cur ≤ c.fast_cadence_high) ∨
    (c.fast_cadence_high < c.fast_cadence_low ∧
      (u32 cur > c.fast_cadence_low ∨ u32 cur < c.fast_cadence_high)) ∨
    (c.fast_cadence_high = c.fast_cadence_low ∧ u32 cur = c.fast_cadence_low)

/-- The percentage trigger fires: the sample is above the published value and
the upward quotient exceeds `trigger_delta_up`, or it is below and the downward
quotient exceeds `trigger_delta_down` (unsigned 32-bit quotients by the sample). -/
def percent_fires (c : Cadence) (cur pub : Int) : Prop :=
  (c.trigger_delta_up ≠ 0 ∧ cur > pub ∧
      u32_mul (u32 (cur - pub)) 10000 / u32 cur > c.trigger_delta_up) ∨
    (c.trigger_delta_down ≠ 0 ∧ cur < pub ∧
      u32_mul (u32 (pub - cur)) 10000 / u32 cur > c.trigger_delta_down)

/-- A configured delta trigger (native or percentage) fires. -/
def delta_fires (c : Cadence) (cur pub : Int) : Prop :=
  (c.trigger_delta_up ≠ 0 ∨ c.trigger_delta_down ≠ 0) ∧
    ((c.trigger_type_percentage = false ∧ native_trigger c cur pub = true) ∨
      (c.trigger_type_percentage = true ∧ percent_fires c cur pub))

/-- The publish decision as a plain disjunction of the four triggers under the
minimum interval: (a) period elapsed, (b) delta trigger, (c) fast window after
the fast period, (d) change of value with no period and no deltas. -/
def decision_disjunction (s : State) (elapsed : Nat) (cur : Int) : Prop :=
  s.cadence.min_interval ≤ elapsed ∧
    ((s.mesh_sensor_publish_period ≠ 0 ∧ s.mesh_sensor_publish_period ≤ elapsed) ∨
      delta_fires s.cadence cur s.mesh_sensor_pub_value ∨
      (s.mesh_sensor_fast_publish_period ≠ 0 ∧ s.mesh_sensor_fast_publish_period ≤ elapsed ∧
        fast_window_test s.cadence cur) ∨
      (s.mesh_sensor_publish_period = 0 ∧ s.cadence.trigger_delta_up = 0 ∧
        s.cadence.trigger_delta_down = 0 ∧ cur ≠ s.mesh_sensor_pub_value))

/-- The callback reaches a division of the percentage test: the minimum interval
has passed, the period test does not fire, the triggers are percentages, and the
sample is above the published value with `trigger_delta_up` set or below it with
`trigger_delta_down` set. -/
def percent_division_reached (s : State) (elapsed : Nat) (cur : Int) : Prop :=
  s.cadence.min_interval ≤ elapsed ∧
    ¬ (s.mesh_sensor_publish_period ≠ 0 ∧ s.mesh_sensor_publish_period ≤ elapsed) ∧
    s.cadence.trigger_type_percentage = true ∧
    ((s.cadence.trigger_delta_up ≠ 0 ∧ cur > s.mesh_sensor_pub_value) ∨
      (s.cadence.trigger_delta_down ≠ 0 ∧ cur < s.mesh_sensor_pub_value))

/-- A state with a unit trigger of 4 upward, a ten second period, fast period
five seconds and the fast window 10..50, published value 40. -/
def example_delta_window : State :=
  example_state (example_cadence 2 false 0 4 10 50) 40 10000 5000

/-! ## Conversion lemmas -/

theorem u32_cast (x : Int) : ((u32 x : Nat) : Int) = x % 4294967296 := by
  unfold u32; omega

theorem tdiv_fifty (x : Int) :
    Int.tdiv x 50 = if 0 ≤ x then x / 50 else -((-x) / 50) := by
  split
  · next h => exact Int.tdiv_eq_ediv h (by decide)
  · next h =>
    have h1 : x = -(-x) := by omega
    have h2 : (0 : Int) ≤ -x := by omega
    conv_lhs => rw [h1]
    rw [Int.neg_tdiv, Int.tdiv_eq_ediv h2 (by decide)]

/-! ## The timer restart leaves the publication record alone -/

@[simp] theorem restart_timer_cadence (s : State) :
    (mesh_sensor_server_restart_timer s).cadence = s.cadence := by
  unfold mesh_sensor_server_restart_timer; split <;> rfl

@[simp] theorem restart_timer_current_value (s : State) :
    (mesh_sensor_server_restart_timer s).mesh_sensor_current_value =
      s.mesh_sensor_current_value := by
  unfold mesh_sensor_server_restart_timer; split <;> rfl

@[simp] theorem restart_timer_sent_value (s : State) :
    (mesh_sensor_server_restart_timer s).mesh_sensor_sent_value = s.mesh_sensor_sent_value := by
  unfold mesh_sensor_server_restart_timer; split <;> rfl

@[simp] theorem restart_timer_pub_value (s : State) :
    (mesh_sensor_server_restart_timer s).mesh_sensor_pub_value = s.mesh_sensor_pub_value := by
  unfold mesh_sensor_server_restart_timer; split <;> rfl

@[simp] theorem restart_timer_pub_time (s : State) :
    (mesh_sensor_server_restart_timer s).mesh_sensor_pub_time = s.mesh_sensor_pub_time := by
  unfold mesh_sensor_server_restart_timer; split <;> rfl

@[simp] theorem restart_timer_publish_period (s : State) :
    (mesh_sensor_server_restart_timer s).mesh_sensor_publish_period =
      s.mesh_sensor_publish_period := by
  unfold mesh_sensor_server_restart_timer; split <;> rfl

@[simp] theorem restart_timer_nvram_cadence (s : State) :
    (mesh_sensor_server_restart_timer s).nvram_cadence = s.nvram_cadence := by
  unfold mesh_sensor_server_restart_timer; split <;> rfl

@[simp] theorem restart_timer_sensor_server_data (s : State) :
    (mesh_sensor_server_restart_timer s).sensor_server_data = s.sensor_server_data := by
  unfold mesh_sensor_server_restart_timer; split <;> rfl

/-! ## Shape of the callback result -/

/-- Below the minimum interval the callback only samples and restarts the timer. -/
theorem callback_below_floor (s : State) (now : Nat) (temp_celsius_100 : Int)
    (h : u32_sub now s.mesh_sensor_pub_time < s.cadence.min_interval) :
    mesh_sensor_publish_timer_callback s now temp_celsius_100 =
      some (mesh_sensor_server_restart_timer
        { s with mesh_sensor_current_value := mesh_sensor_get_temperature_8 temp_celsius_100 },
        false) := by
  simp [mesh_sensor_publish_timer_callback, h]

/-- Once the minimum interval has passed the callback result is determined by
the final value of `pub_needed`. -/
theorem callback_floor_passed (s : State) (now : Nat) (temp_celsius_100 : Int) (b : Bool)
    (h : s.cadence.min_interval ≤ u32_sub now s.mesh_sensor_pub_time)
    (hb : pub_needed_after s (u32_sub now s.mesh_sensor_pub_time)
      (mesh_sensor_get_temperature_8 temp_celsius_100) = some b) :
    mesh_sensor_publish_timer_callback s now temp_celsius_100 =
      some (mesh_sensor_server_restart_timer
        (if b = true then
          send_publication
            { s with mesh_sensor_current_value := mesh_sensor_get_temperature_8 temp_celsius_100 }
            now
        else
          { s with mesh_sensor_current_value := mesh_sensor_get_temperature_8 temp_celsius_100 }),
        b) := by
  have h1 : ¬ u32_sub now s.mesh_sensor_pub_time < s.cadence.min_interval := by omega
  have hb' : pub_needed_after
      { s with mesh_sensor_current_value := mesh_sensor_get_temperature_8 temp_celsius_100 }
      (u32_sub now s.mesh_sensor_pub_time)
      (mesh_sensor_get_temperature_8 temp_celsius_100) = some b := hb
  simp only [mesh_sensor_publish_timer_callback, h1, if_false, hb']

/-- A division by zero in the delta block makes the callback undefined. -/
theorem callback_undefined (s : State) (now : Nat) (temp_celsius_100 : Int)
    (h : s.cadence.min_interval ≤ u32_sub now s.mesh_sensor_pub_time)
    (hb : pub_needed_after s (u32_sub now s.mesh_sensor_pub_time)
      (mesh_sensor_get_temperature_8 temp_celsius_100) = none) :
    mesh_sensor_publish_timer_callback s now temp_celsius_100 = none := by
  have h1 : ¬ u32_sub now s.mesh_sensor_pub_time < s.cadence.min_interval := by omega
  have hb' : pub_needed_after
      { s with mesh_sensor_current_value := mesh_sensor_get_temperature_8 temp_celsius_100 }
      (u32_sub now s.mesh_sensor_pub_time)
      (mesh_sensor_get_temperature_8 temp_celsius_100) = none := hb
  simp only [mesh_sensor_publish_timer_callback, h1, if_false, hb']

/-! ## Consistency of the fast period in reachable states -/

theorem restart_timer_consistent (s : State) :
    fast_period_consistent (mesh_sensor_server_restart_timer s) := by
  intro hp
  unfold mesh_sensor_server_restart_timer at hp ⊢
  split
  · next h0 => simp [h0] at hp
  · rfl

theorem restart_timer_publication_state (s : State) (hc : fast_period_consistent s) :
    publication_state (mesh_sensor_server_restart_timer s) = publication_state s := by
  unfold mesh_sensor_server_restart_timer
  split
  · rfl
  · next h0 =>
    have := hc h0
    simp only [publication_state, Prod.mk.injEq, true_and]
    exact this.symm

theorem step_consistent (k : SdkIds) (s s' : State) (op : Op)
    (hc : fast_period_consistent s) (h : step k s op = some s') :
    fast_period_consistent s' := by
  cases op with
  | timer now raw =>
    simp only [step] at h
    unfold mesh_sensor_publish_timer_callback at h
    simp only at h
    split at h
    · simp only [Option.map_some', Option.some.injEq] at h
      subst h
      exact restart_timer_consistent _
    · split at h
      · simp at h
      · simp only [Option.map_some', Option.some.injEq] at h
        subst h
        exact restart_timer_consistent _
  | period_set e c m p =>
    simp only [step, mesh_app_notify_period_set, Option.some.injEq] at h
    subst h
    split
    · exact hc
    · exact restart_timer_consistent _
  | cadence_set e c =>
    simp only [step, mesh_sensor_server_config_change_handler,
      mesh_sensor_server_process_cadence_changed] at h
    split at h
    · simp only [Option.some.injEq] at h
      subst h
      exact restart_timer_consistent _
    · simp at h
  | config_change e ev =>
    cases ev with
    | WICED_BT_MESH_SENSOR_CADENCE_STATUS =>
      simp only [step, mesh_sensor_server_config_change_handler,
        mesh_sensor_server_process_cadence_changed] at h
      split at h
      · simp only [Option.some.injEq] at h
        subst h
        exact restart_timer_consistent _
      · simp at h
    | WICED_BT_MESH_SENSOR_SETTING_STATUS =>
      simp only [step, mesh_sensor_server_config_change_handler,
        mesh_sensor_server_process_setting_changed, Option.some.injEq] at h
      subst h
      exact hc
    | other =>
      simp only [step, mesh_sensor_server_config_change_handler, Option.some.injEq] at h
      subst h
      exact hc
  | report ev raw =>
    simp only [step, Option.some.injEq] at h
    subst h
    cases ev <;> exact hc
  | factory_reset =>
    simp only [step, mesh_app_factory_reset, Option.some.injEq] at h
    subst h
    exact hc

theorem reachable_consistent (k : SdkIds) (s : State) (hr : Reachable k s) :
    fast_period_consistent s := by
  induction hr with
  | init nvram now raw =>
    intro hp
    cases nvram <;> simp [mesh_app_init, boot_state] at hp
  | step s s' op _ hstep ih => exact step_consistent k s s' op ih hstep

/-! ## The callback reads only the cadence and the publication state -/

theorem pub_needed_after_congr (s t : State) (elapsed : Nat) (cur : Int)
    (hc : t.cadence = s.cadence) (hp : publication_state t = publication_state s) :
    pub_needed_after t elapsed cur = pub_needed_after s elapsed cur := by
  simp only [publication_state, Prod.mk.injEq] at hp
  obtain ⟨h1, h2, h3, h4⟩ := hp
  simp only [pub_needed_after, hc, h1, h3, h4]

theorem callback_decision_congr (s t : State) (now : Nat) (temp_celsius_100 : Int)
    (hc : t.cadence = s.cadence) (hp : publication_state t = publication_state s) :
    (mesh_sensor_publish_timer_callback t now temp_celsius_100).map Prod.snd =
      (mesh_sensor_publish_timer_callback s now temp_celsius_100).map Prod.snd := by
  have hpa := pub_needed_after_congr s t (u32_sub now t.mesh_sensor_pub_time)
    (mesh_sensor_get_temperature_8 temp_celsius_100) hc hp
  have h2 : t.mesh_sensor_pub_time = s.mesh_sensor_pub_time := by
    simp only [publication_state, Prod.mk.injEq] at hp
    exact hp.2.1
  by_cases hf : u32_sub now s.mesh_sensor_pub_time < s.cadence.min_interval
  · have hft : u32_sub now t.mesh_sensor_pub_time < t.cadence.min_interval := by
      rw [h2, hc]; exact hf
    rw [callback_below_floor s now temp_celsius_100 hf,
      callback_below_floor t now temp_celsius_100 hft]
    rfl
  · have hfs : s.cadence.min_interval ≤ u32_sub now s.mesh_sensor_pub_time := by omega
    have hft : t.cadence.min_interval ≤ u32_sub now t.mesh_sensor_pub_time := by
      rw [h2, hc]; exact hfs
    cases hb : pub_needed_after s (u32_sub now s.mesh_sensor_pub_time)
        (mesh_sensor_get_temperature_8 temp_celsius_100) with
    | none =>
      have hbt : pub_needed_after t (u32_sub now t.mesh_sensor_pub_time)
          (mesh_sensor_get_temperature_8 temp_celsius_100) = none := by
        rw [hpa, h2]; exact hb
      rw [callback_undefined s now temp_celsius_100 hfs hb,
        callback_undefined t now temp_celsius_100 hft hbt]
    | some b =>
      have hbt : pub_needed_after t (u32_sub now t.mesh_sensor_pub_time)
          (mesh_sensor_get_temperature_8 temp_celsius_100) = some b := by
        rw [hpa, h2]; exact hb
      rw [callback_floor_passed s now temp_celsius_100 b hfs hb,
        callback_floor_passed t now temp_celsius_100 b hft hbt]
      rfl

/-- A callback that does not publish ends in the restarted timer on the sampled
state. -/
theorem callback_no_publish_state (s s' : State) (now : Nat) (temp_celsius_100 : Int)
    (h : mesh_sensor_publish_timer_callback s now temp_celsius_100 = some (s', false)) :
    s' = mesh_sensor_server_restart_timer
      { s with mesh_sensor_current_value := mesh_sensor_get_temperature_8 temp_celsius_100 } := by
  unfold mesh_sensor_publish_timer_callback at h
  simp only at h
  split at h
  · simp only [Option.some.injEq, Prod.mk.injEq, and_true] at h
    exact h.symm
  · split at h
    · simp at h
    · simp only [Option.some.injEq, Prod.mk.injEq] at h
      obtain ⟨h1, h2⟩ := h
      subst h2
      simpa using h1.symm

/-! ## Integer facts about the sample and the trigger tests -/

/-- The sampler returns a signed 8-bit value. -/
theorem sample_range (r : Int) :
    -128 ≤ mesh_sensor_get_temperature_8 r ∧ mesh_sensor_get_temperature_8 r ≤ 127 := by
  unfold mesh_sensor_get_temperature_8 i8
  split
  · omega
  · split <;> omega

/-- Without wrap-around the native trigger test is the comparison of the
mathematical values. -/
theorem native_trigger_iff (c : Cadence) (cur pub : Int)
    (hcur : -128 ≤ cur ∧ cur ≤ 127) (hpub : -128 ≤ pub ∧ pub ≤ 127)
    (hup : c.trigger_delta_up ≤ 2147483519) (hdown : c.trigger_delta_down ≤ 2147483519) :
    native_trigger c cur pub = true ↔
      ((c.trigger_delta_up ≠ 0 ∧ cur ≥ pub + (c.trigger_delta_up : Int)) ∨
        (c.trigger_delta_down ≠ 0 ∧ cur ≤ pub - (c.trigger_delta_down : Int))) := by
  have e1 : i32 cur = cur := by unfold i32; omega
  have e2 : i32 (u32_add (u32 pub) c.trigger_delta_up) = pub + (c.trigger_delta_up : Int) := by
    unfold i32 u32_add u32; omega
  have e3 : i32 (u32_sub (u32 pub) c.trigger_delta_down) =
      pub - (c.trigger_delta_down : Int) := by
    unfold i32 u32_sub u32; omega
  simp only [native_trigger, e1, e2, e3, Bool.or_eq_true, Bool.and_eq_true, decide_eq_true_eq]

/-- The unsigned quotient of the percentage test, for a positive sample. -/
theorem percent_quotient (a cur : Int) (ha : 0 ≤ a ∧ a ≤ 255) (hc : 0 < cur ∧ cur ≤ 127) :
    u32_div (u32_mul (u32 a) 10000) (u32 cur) = some (a * 10000 / cur).toNat := by
  obtain ⟨n, rfl⟩ := Int.eq_ofNat_of_zero_le ha.1
  obtain ⟨m, rfl⟩ := Int.eq_ofNat_of_zero_le (le_of_lt hc.1)
  have hn : u32 (n : Int) = n := by unfold u32; omega
  have hm : u32 (m : Int) = m := by unfold u32; omega
  have hmul : u32_mul n 10000 = n * 10000 := by unfold u32_mul; omega
  have hm0 : m ≠ 0 := by omega
  rw [hn, hm, hmul, u32_div, if_neg hm0]
  congr 1

/-- For a positive sample the percentage test has a result, which is the strict
comparison of the quotient with the delta of the direction of the change. -/
theorem percent_trigger_pos (c : Cadence) (cur pub : Int)
    (hcur : 0 < cur ∧ cur ≤ 127) (hpub : -128 ≤ pub ∧ pub ≤ 127) :
    ∃ fired, percent_trigger c cur pub = some fired ∧
      (c.trigger_delta_up ≠ 0 → cur > pub →
        (fired = true ↔ (cur - pub) * 10000 / cur > (c.trigger_delta_up : Int))) ∧
      (c.trigger_delta_down ≠ 0 → cur < pub →
        (fired = true ↔ (pub - cur) * 10000 / cur > (c.trigger_delta_down : Int))) := by
  unfold percent_trigger
  by_cases h1 : c.trigger_delta_up ≠ 0 ∧ cur > pub
  · have hq := percent_quotient (cur - pub) cur (by omega) hcur
    have hnn : 0 ≤ (cur - pub) * 10000 / cur :=
      Int.ediv_nonneg (by nlinarith [h1.2]) (le_of_lt hcur.1)
    rw [if_pos h1, hq]
    refine ⟨_, rfl, ?_, ?_⟩
    · intro _ _
      simp only [decide_eq_true_eq]
      omega
    · intro _ h; omega
  · rw [if_neg h1]
    by_cases h2 : c.trigger_delta_down ≠ 0 ∧ cur < pub
    · have hq := percent_quotient (pub - cur) cur (by omega) hcur
      have hnn : 0 ≤ (pub - cur) * 10000 / cur :=
        Int.ediv_nonneg (by nlinarith [h2.2]) (le_of_lt hcur.1)
      rw [if_pos h2, hq]
      refine ⟨_, rfl, ?_, ?_⟩
      · intro _ h; omega
      · intro _ _
        simp only [decide_eq_true_eq]
        omega
    · rw [if_neg h2]
      refine ⟨false, rfl, ?_, ?_⟩
      · intro h3 h4; exact absurd ⟨h3, h4⟩ h1
      · intro h3 h4; exact absurd ⟨h3, h4⟩ h2

/-- The value of `pub_needed` when the period test does not fire. -/
theorem pub_needed_after_no_period (s : State) (elapsed : Nat) (cur : Int)
    (hp : s.mesh_sensor_publish_period = 0 ∨ elapsed < s.mesh_sensor_publish_period) :
    pub_needed_after s elapsed cur =
      match delta_stage s.cadence cur s.mesh_sensor_pub_value false with
      | none => none
      | some pub_needed =>
        some (change_stage s.cadence s.mesh_sensor_publish_period cur s.mesh_sensor_pub_value
          (fast_stage s.cadence s.mesh_sensor_fast_publish_period elapsed cur pub_needed)) := by
  have hp0 : ¬ (s.mesh_sensor_publish_period ≠ 0 ∧ elapsed ≥ s.mesh_sensor_publish_period) := by
    omega
  simp only [pub_needed_after, hp0, decide_False]

/-- The fast cadence block does nothing when the fast period is zero. -/
theorem fast_stage_zero (c : Cadence) (elapsed : Nat) (cur : Int) (b : Bool) :
    fast_stage c 0 elapsed cur b = b := by
  simp [fast_stage]

/-- The change detection block does nothing when a delta is configured. -/
theorem change_stage_configured (c : Cadence) (period : Nat) (cur pub : Int) (b : Bool)
    (h : c.trigger_delta_up ≠ 0 ∨ c.trigger_delta_down ≠ 0) :
    change_stage c period cur pub b = b := by
  unfold change_stage
  rw [if_neg]
  omega

/-- The change detection block does nothing when a publish period is set. -/
theorem change_stage_period (c : Cadence) (period : Nat) (cur pub : Int) (b : Bool)
    (h : period ≠ 0) :
    change_stage c period cur pub b = b := by
  unfold change_stage
  rw [if_neg]
  omega

/-- With bounds in 0..127 the unsigned window test on a signed 8-bit sample is
the signed one. -/
theorem fast_window_iff (c : Cadence) (fast_period elapsed : Nat) (cur : Int)
    (hcur : -128 ≤ cur ∧ cur ≤ 127)
    (hlow : c.fast_cadence_low ≤ 127) (hhigh : c.fast_cadence_high ≤ 127)
    (hfast : fast_period ≠ 0) (helapsed : fast_period ≤ elapsed) :
    fast_stage c fast_period elapsed cur false = true ↔
      ((c.fast_cadence_high > c.fast_cadence_low ∧
          (c.fast_cadence_low : Int) < cur ∧ cur ≤ (c.fast_cadence_high : Int)) ∨
        (c.fast_cadence_high < c.fast_cadence_low ∧
          (cur > (c.fast_cadence_low : Int) ∨ cur < (c.fast_cadence_high : Int))) ∨
        (c.fast_cadence_high = c.fast_cadence_low ∧ cur = (c.fast_cadence_low : Int))) := by
  have hu : ((u32 cur : Nat) : Int) = if 0 ≤ cur then cur else cur + 4294967296 := by
    rw [u32_cast]; split <;> omega
  unfold fast_stage
  rw [if_pos ⟨rfl, hfast⟩, if_pos helapsed]
  split_ifs <;> simp only [Bool.false_eq_true, false_iff, true_iff] <;> split at hu <;> omega

/-- The example state `example_configured` is reached by a cadence change and
a period change after initialisation. -/
theorem example_configured_reachable : Reachable example_ids example_configured :=
  Reachable.step example_after_cadence example_configured (Op.period_set 0 65535 4352 10000)
    (Reachable.step example_init example_after_cadence
      (Op.cadence_set 0 (example_cadence 2 false 0 0 10 50))
      (Reachable.init none 1000 2000) (by decide))
    (by decide)

/-! ## The blocks of the callback as disjunctions -/

theorem fast_stage_iff (c : Cadence) (fast_period elapsed : Nat) (cur : Int) (b : Bool) :
    fast_stage c fast_period elapsed cur b = true ↔
      (b = true ∨ (fast_period ≠ 0 ∧ fast_period ≤ elapsed ∧ fast_window_test c cur)) := by
  unfold fast_stage fast_window_test
  cases b with
  | true => simp
  | false =>
    simp only [Bool.false_eq_true, false_or, true_and]
    by_cases hf : fast_period ≠ 0
    · rw [if_pos hf]
      by_cases he : elapsed ≥ fast_period
      · rw [if_pos he]
        split_ifs <;> simp only [Bool.false_eq_true, false_iff, true_iff] <;> omega
      · rw [if_neg he]
        simp only [Bool.false_eq_true, false_iff]
        omega
    · rw [if_neg hf]
      simp only [Bool.false_eq_true, false_iff]
      tauto

theorem change_stage_iff (c : Cadence) (period : Nat) (cur pub : Int) (b : Bool) :
    change_stage c period cur pub b = true ↔
      (b = true ∨ (period = 0 ∧ c.trigger_delta_up = 0 ∧ c.trigger_delta_down = 0 ∧
        cur ≠ pub)) := by
  unfold change_stage
  cases b with
  | true => simp
  | false =>
    simp only [Bool.false_eq_true, false_or, true_and]
    by_cases h : period = 0 ∧ c.trigger_delta_up = 0 ∧ c.trigger_delta_down = 0
    · rw [if_pos h]
      by_cases hc : cur ≠ pub
      · rw [if_pos hc]; simp only [true_iff]; exact ⟨h.1, h.2.1, h.2.2, hc⟩
      · rw [if_neg hc]; simp only [Bool.false_eq_true, false_iff]; tauto
    · rw [if_neg h]
      simp only [Bool.false_eq_true, false_iff]
      tauto

/-- The percentage test has a result when the converted sample is non-zero or no
division is reached; the result says whether the percentage trigger fires. -/
theorem percent_trigger_defined (c : Cadence) (cur pub : Int)
    (hdef : u32 cur ≠ 0 ∨ ¬ ((c.trigger_delta_up ≠ 0 ∧ cur > pub) ∨
      (c.trigger_delta_down ≠ 0 ∧ cur < pub))) :
    ∃ fired, percent_trigger c cur pub = some fired ∧
      (fired = true ↔ percent_fires c cur pub) := by
  unfold percent_trigger percent_fires
  by_cases h1 : c.trigger_delta_up ≠ 0 ∧ cur > pub
  · have h0 : u32 cur ≠ 0 := by
      rcases hdef with h | h
      · exact h
      · exact absurd (Or.inl h1) h
    rw [if_pos h1]
    simp only [u32_div, if_neg h0]
    refine ⟨_, rfl, ?_⟩
    simp only [decide_eq_true_eq]
    constructor
    · intro h; exact Or.inl ⟨h1.1, h1.2, h⟩
    · intro h
      rcases h with h | h
      · exact h.2.2
      · omega
  · rw [if_neg h1]
    by_cases h2 : c.trigger_delta_down ≠ 0 ∧ cur < pub
    · have h0 : u32 cur ≠ 0 := by
        rcases hdef with h | h
        · exact h
        · exact absurd (Or.inr h2) h
      rw [if_pos h2]
      simp only [u32_div, if_neg h0]
      refine ⟨_, rfl, ?_⟩
      simp only [decide_eq_true_eq]
      constructor
      · intro h; exact Or.inr ⟨h2.1, h2.2, h⟩
      · intro h
        rcases h with h | h
        · exact absurd ⟨h.1, h.2.1⟩ h1
        · exact h.2.2
    · rw [if_neg h2]
      refine ⟨false, rfl, ?_⟩
      simp only [Bool.false_eq_true, false_iff]
      intro h
      rcases h with h | h
      · exact h1 ⟨h.1, h.2.1⟩
      · exact h2 ⟨h.1, h.2.1⟩

/-- The delta block, entered with `pub_needed` false, has a result when no
division by zero is reached; the result says whether a delta trigger fires. -/
theorem delta_stage_defined (c : Cadence) (cur pub : Int)
    (hdef : u32 cur ≠ 0 ∨ ¬ (c.trigger_type_percentage = true ∧
      ((c.trigger_delta_up ≠ 0 ∧ cur > pub) ∨ (c.trigger_delta_down ≠ 0 ∧ cur < pub)))) :
    ∃ d, delta_stage c cur pub false = some d ∧ (d = true ↔ delta_fires c cur pub) := by
  unfold delta_stage delta_fires
  by_cases hcfg : c.trigger_delta_up ≠ 0 ∨ c.trigger_delta_down ≠ 0
  · rw [if_pos ⟨rfl, hcfg⟩]
    by_cases hn : c.trigger_type_percentage = false
    · rw [if_pos hn]
      refine ⟨_, rfl, ?_⟩
      cases hnt : native_trigger c cur pub <;> simp [hn, hcfg]
    · have hp : c.trigger_type_percentage = true := by
        cases h : c.trigger_type_percentage
        · exact absurd h hn
        · rfl
      rw [if_neg hn]
      have hdef' : u32 cur ≠ 0 ∨ ¬ ((c.trigger_delta_up ≠ 0 ∧ cur > pub) ∨
          (c.trigger_delta_down ≠ 0 ∧ cur < pub)) := by
        rcases hdef with h | h
        · exact Or.inl h
        · exact Or.inr (fun hc => h ⟨hp, hc⟩)
      obtain ⟨fired, hf, hiff⟩ := percent_trigger_defined c cur pub hdef'
      rw [hf]
      refine ⟨_, rfl, ?_⟩
      cases fired with
      | true =>
        simp only [if_true, true_iff]
        exact ⟨hcfg, Or.inr ⟨hp, hiff.mp rfl⟩⟩
      | false =>
        simp only [Bool.false_eq_true, if_false, false_iff]
        intro hc
        rcases hc.2 with h | h
        · exact hn h.1
        · exact absurd (hiff.mpr h.2) (by simp)
  · rw [if_neg (fun h => hcfg h.2)]
    refine ⟨false, rfl, ?_⟩
    simp only [Bool.false_eq_true, false_iff]
    intro hc
    exact hcfg hc.1

/-- The converted sample is zero only for the sample zero. -/
theorem u32_sample_ne_zero (cur : Int) (hcur : -128 ≤ cur ∧ cur ≤ 127) (h : cur ≠ 0) :
    u32 cur ≠ 0 := by
  unfold u32; omega

/-! ## State at the end of the callback -/

/-- The state at the end of the callback is the timer restart applied to the
sampled state, after the publication block when `pub_needed` is set. -/
theorem callback_result_state (s s' : State) (now : Nat) (temp_celsius_100 : Int) (b : Bool)
    (h : mesh_sensor_publish_timer_callback s now temp_celsius_100 = some (s', b)) :
    s' = mesh_sensor_server_restart_timer
      (if b = true then
        send_publication
          { s with mesh_sensor_current_value := mesh_sensor_get_temperature_8 temp_celsius_100 }
          now
      else
        { s with mesh_sensor_current_value := mesh_sensor_get_temperature_8 temp_celsius_100 }) := by
  by_cases hf : u32_sub now s.mesh_sensor_pub_time < s.cadence.min_interval
  · rw [callback_below_floor s now temp_celsius_100 hf] at h
    simp only [Option.some.injEq, Prod.mk.injEq] at h
    obtain ⟨h1, h2⟩ := h
    subst h2
    subst h1
    simp
  · have hf' : s.cadence.min_interval ≤ u32_sub now s.mesh_sensor_pub_time := by omega
    cases hb : pub_needed_after s (u32_sub now s.mesh_sensor_pub_time)
        (mesh_sensor_get_temperature_8 temp_celsius_100) with
    | none =>
      rw [callback_undefined s now temp_celsius_100 hf' hb] at h
      simp at h
    | some b' =>
      rw [callback_floor_passed s now temp_celsius_100 b' hf' hb] at h
      simp only [Option.some.injEq, Prod.mk.injEq] at h
      obtain ⟨h1, h2⟩ := h
      subst h2
      exact h1.symm

/-! ## Claims -/

/-- C1 (floor dominance): when the unsigned 32-bit difference between the tick
count and the last publish time is below the minimum interval, the timer
callback returns with `pub_needed` false and hands nothing to the sensor model,
for every state (period, deltas, window) and every thermistor reading. -/
theorem C1_floor_dominance (s : State) (now : Nat) (temp_celsius_100 : Int)
    (h : u32_sub now s.mesh_sensor_pub_time < s.cadence.min_interval) :
    ∃ s', mesh_sensor_publish_timer_callback s now temp_celsius_100 = some (s', false) ∧
      s'.sensor_server_data = s.sensor_server_data ∧
      s'.mesh_sensor_pub_value = s.mesh_sensor_pub_value ∧
      s'.mesh_sensor_pub_time = s.mesh_sensor_pub_time := by
  exact ⟨_, callback_below_floor s now temp_celsius_100 h, by simp⟩

/-- Floor dominance at a concrete state: 1000 ticks after the last publication, with a one millisecond period, percentage triggers and a saturated reading. -/
theorem C1_floor_dominance_witness :
    u32_sub 2000 (example_state (example_cadence 4 true 5 5 0 100) 40 1 1).mesh_sensor_pub_time
        < (example_state (example_cadence 4 true 5 5 0 100) 40 1 1).cadence.min_interval ∧
      ∃ s', mesh_sensor_publish_timer_callback
          (example_state (example_cadence 4 true 5 5 0 100) 40 1 1) 2000 6350 = some (s', false) ∧
        s'.sensor_server_data = (example_state (example_cadence 4 true 5 5 0 100) 40 1 1).sensor_server_data ∧
        s'.mesh_sensor_pub_value = (example_state (example_cadence 4 true 5 5 0 100) 40 1 1).mesh_sensor_pub_value ∧
        s'.mesh_sensor_pub_time = (example_state (example_cadence 4 true 5 5 0 100) 40 1 1).mesh_sensor_pub_time :=
  ⟨by decide, C1_floor_dominance _ 2000 6350 (by decide)⟩


/-- C2 (ordinary period publish): when the elapsed time is not below the minimum
interval, the publish period is non-zero and the elapsed time has reached it,
the timer callback ends with `pub_needed` set: it records the sample and the
tick count as the published value and time and hands the sample to the sensor
model. -/
theorem C2_period_publish (s : State) (now : Nat) (temp_celsius_100 : Int)
    (hfloor : s.cadence.min_interval ≤ u32_sub now s.mesh_sensor_pub_time)
    (hperiod : s.mesh_sensor_publish_period ≠ 0)
    (helapsed : s.mesh_sensor_publish_period ≤ u32_sub now s.mesh_sensor_pub_time) :
    ∃ s', mesh_sensor_publish_timer_callback s now temp_celsius_100 = some (s', true) ∧
      s'.mesh_sensor_pub_value = mesh_sensor_get_temperature_8 temp_celsius_100 ∧
      s'.mesh_sensor_pub_time = now ∧
      s'.sensor_server_data =
        s.sensor_server_data ++ [mesh_sensor_get_temperature_8 temp_celsius_100] := by
  have hb : pub_needed_after s (u32_sub now s.mesh_sensor_pub_time)
      (mesh_sensor_get_temperature_8 temp_celsius_100) = some true := by
    simp [pub_needed_after, hperiod, helapsed, delta_stage, fast_stage, change_stage]
  exact ⟨_, callback_floor_passed s now temp_celsius_100 true hfloor hb,
    by simp [send_publication]⟩

/-- Period publish at a concrete state: five second period, 6000 ticks after the last publication. -/
theorem C2_period_publish_witness :
    (example_state (example_cadence 1 false 0 0 0 0) 40 5000 0).cadence.min_interval
        ≤ u32_sub 7000 (example_state (example_cadence 1 false 0 0 0 0) 40 5000 0).mesh_sensor_pub_time ∧
      ∃ s', mesh_sensor_publish_timer_callback
          (example_state (example_cadence 1 false 0 0 0 0) 40 5000 0) 7000 2000 = some (s', true) ∧
        s'.mesh_sensor_pub_value = mesh_sensor_get_temperature_8 2000 ∧
        s'.mesh_sensor_pub_time = 7000 ∧
        s'.sensor_server_data =
          (example_state (example_cadence 1 false 0 0 0 0) 40 5000 0).sensor_server_data ++
            [mesh_sensor_get_temperature_8 2000] :=
  ⟨by decide, C2_period_publish _ 7000 2000 (by decide) (by decide) (by decide)⟩


/-- C3 (publication record): over every operation after initialisation (timer
callback, publish period change, cadence change, configuration and setting
events, report events, factory reset), the published value and the publish time
change only in a timer callback that ends with `pub_needed` set, which sets them
to the sample just taken and to the tick count; every other operation, and a
callback that does not publish, leaves both as they were. -/
theorem C3_publication_record (k : SdkIds) (s s' : State) (op : Op)
    (h : step k s op = some s') :
    (publishes s op = true →
      ∃ now temp_celsius_100, op = Op.timer now temp_celsius_100 ∧
        s'.mesh_sensor_pub_value = mesh_sensor_get_temperature_8 temp_celsius_100 ∧
        s'.mesh_sensor_pub_time = now) ∧
    (publishes s op = false →
      s'.mesh_sensor_pub_value = s.mesh_sensor_pub_value ∧
      s'.mesh_sensor_pub_time = s.mesh_sensor_pub_time) := by
  cases op with
  | timer now raw =>
    simp only [step, publishes] at h ⊢
    by_cases hf : u32_sub now s.mesh_sensor_pub_time < s.cadence.min_interval
    · rw [callback_below_floor s now raw hf] at h ⊢
      simp only [Option.map_some', Option.some.injEq] at h
      subst h
      simp
    · have hf' : s.cadence.min_interval ≤ u32_sub now s.mesh_sensor_pub_time := by omega
      cases hb : pub_needed_after s (u32_sub now s.mesh_sensor_pub_time)
          (mesh_sensor_get_temperature_8 raw) with
      | none =>
        rw [callback_undefined s now raw hf' hb] at h
        simp at h
      | some b =>
        rw [callback_floor_passed s now raw b hf' hb] at h ⊢
        simp only [Option.map_some', Option.some.injEq] at h
        subst h
        cases b with
        | false => simp
        | true =>
          simp only [send_publication, if_true, restart_timer_pub_value, restart_timer_pub_time]
          exact ⟨fun _ => ⟨now, raw, rfl, rfl, rfl⟩, fun hc => absurd hc (by simp)⟩
  | period_set e c m p =>
    simp only [step, publishes, mesh_app_notify_period_set, Option.some.injEq] at h ⊢
    subst h
    split <;> simp
  | cadence_set e c =>
    simp only [step, publishes, mesh_sensor_server_config_change_handler,
      mesh_sensor_server_process_cadence_changed] at h ⊢
    split at h
    · simp only [Option.some.injEq] at h
      subst h
      simp
    · simp at h
  | config_change e ev =>
    cases ev with
    | WICED_BT_MESH_SENSOR_CADENCE_STATUS =>
      simp only [step, publishes, mesh_sensor_server_config_change_handler,
        mesh_sensor_server_process_cadence_changed] at h ⊢
      split at h
      · simp only [Option.some.injEq] at h
        subst h
        simp
      · simp at h
    | WICED_BT_MESH_SENSOR_SETTING_STATUS =>
      simp only [step, publishes, mesh_sensor_server_config_change_handler,
        mesh_sensor_server_process_setting_changed, Option.some.injEq] at h ⊢
      subst h
      simp
    | other =>
      simp only [step, publishes, mesh_sensor_server_config_change_handler,
        Option.some.injEq] at h ⊢
      subst h
      simp
  | report ev raw =>
    simp only [step, publishes, Option.some.injEq] at h ⊢
    subst h
    cases ev <;> simp [mesh_sensor_server_report_handler]
  | factory_reset =>
    simp only [step, publishes, mesh_app_factory_reset, Option.some.injEq] at h ⊢
    subst h
    simp

/-- The publication record at a concrete publishing timer callback. -/
theorem C3_publication_record_witness :
    step ⟨65535, 4352⟩ (example_state (example_cadence 1 false 0 0 0 0) 40 5000 0)
        (Op.timer 7000 2000) =
      some (mesh_sensor_server_restart_timer (send_publication
        { example_state (example_cadence 1 false 0 0 0 0) 40 5000 0 with
          mesh_sensor_current_value := 40 } 7000)) ∧
    ((publishes (example_state (example_cadence 1 false 0 0 0 0) 40 5000 0) (Op.timer 7000 2000)
        = true →
      ∃ now temp_celsius_100, Op.timer 7000 2000 = Op.timer now temp_celsius_100 ∧
        (mesh_sensor_server_restart_timer (send_publication
          { example_state (example_cadence 1 false 0 0 0 0) 40 5000 0 with
            mesh_sensor_current_value := 40 } 7000)).mesh_sensor_pub_value =
          mesh_sensor_get_temperature_8 temp_celsius_100 ∧
        (mesh_sensor_server_restart_timer (send_publication
          { example_state (example_cadence 1 false 0 0 0 0) 40 5000 0 with
            mesh_sensor_current_value := 40 } 7000)).mesh_sensor_pub_time = now) ∧
    (publishes (example_state (example_cadence 1 false 0 0 0 0) 40 5000 0) (Op.timer 7000 2000)
        = false →
      (mesh_sensor_server_restart_timer (send_publication
        { example_state (example_cadence 1 false 0 0 0 0) 40 5000 0 with
          mesh_sensor_current_value := 40 } 7000)).mesh_sensor_pub_value =
        (example_state (example_cadence 1 false 0 0 0 0) 40 5000 0).mesh_sensor_pub_value ∧
      (mesh_sensor_server_restart_timer (send_publication
        { example_state (example_cadence 1 false 0 0 0 0) 40 5000 0 with
          mesh_sensor_current_value := 40 } 7000)).mesh_sensor_pub_time =
        (example_state (example_cadence 1 false 0 0 0 0) 40 5000 0).mesh_sensor_pub_time)) :=
  ⟨by decide, C3_publication_record ⟨65535, 4352⟩ _ _ _ (by decide)⟩


/-- C4 (idempotence of non-publish): in every state reached after
initialisation, a timer callback (timer restart included) that does not publish
leaves the publication state (published value, publish time, publish period,
fast period) as it was, and the same callback again, with the same tick count
and reading, again does not publish and again leaves it as it was. -/
theorem C4_non_publish_idempotent (k : SdkIds) (s s' : State) (now : Nat)
    (temp_celsius_100 : Int) (hr : Reachable k s)
    (h : mesh_sensor_publish_timer_callback s now temp_celsius_100 = some (s', false)) :
    publication_state s' = publication_state s ∧
    ∃ s'', mesh_sensor_publish_timer_callback s' now temp_celsius_100 = some (s'', false) ∧
      publication_state s'' = publication_state s' := by
  have hc : fast_period_consistent s := reachable_consistent k s hr
  have hs' := callback_no_publish_state s s' now temp_celsius_100 h
  have hps : publication_state s' = publication_state s := by
    rw [hs']
    exact restart_timer_publication_state _ hc
  have hcad : s'.cadence = s.cadence := by rw [hs']; simp
  have hc' : fast_period_consistent s' := by rw [hs']; exact restart_timer_consistent _
  refine ⟨hps, ?_⟩
  have hd := callback_decision_congr s s' now temp_celsius_100 hcad hps
  rw [h] at hd
  cases hcb : mesh_sensor_publish_timer_callback s' now temp_celsius_100 with
  | none => rw [hcb] at hd; simp at hd
  | some r =>
    obtain ⟨s'', b⟩ := r
    rw [hcb] at hd
    simp only [Option.map_some', Option.some.injEq] at hd
    subst hd
    refine ⟨s'', rfl, ?_⟩
    rw [callback_no_publish_state s' s'' now temp_celsius_100 hcb]
    exact restart_timer_publication_state _ hc'


/-- Idempotence at a reachable state: after initialisation, a cadence change and a period change, a callback outside the fast window does not publish, twice. -/
theorem C4_non_publish_idempotent_witness :
    Reachable example_ids example_configured ∧
    mesh_sensor_publish_timer_callback example_configured 6000 250 =
      some (example_polled, false) ∧
    (publication_state example_polled = publication_state example_configured ∧
      ∃ s'', mesh_sensor_publish_timer_callback example_polled 6000 250 = some (s'', false) ∧
        publication_state s'' = publication_state example_polled) :=
  have hr : Reachable example_ids example_configured :=
    Reachable.step example_after_cadence example_configured (Op.period_set 0 65535 4352 10000)
      (Reachable.step example_init example_after_cadence
        (Op.cadence_set 0 (example_cadence 2 false 0 0 10 50))
        (Reachable.init none 1000 2000) (by decide))
      (by decide)
  ⟨hr, by decide,
    C4_non_publish_idempotent example_ids example_configured example_polled 6000 250 hr
      (by decide)⟩

/-- C5 (sampler mapping): for every raw reading `r` in hundredths of a degree
(in particular every signed 16-bit one), `mesh_sensor_get_temperature_8` returns
-128 when `r < -6400`, 127 when `r ≥ 6350`, and otherwise the quotient of `r` by
50 truncated toward zero, which lies in -128..126, so that the conversion to
`int8_t` changes nothing; the boundary values are as listed. -/
theorem C5_sampler_mapping (r : Int) :
    (r < -6400 → mesh_sensor_get_temperature_8 r = -128) ∧
    (6350 ≤ r → mesh_sensor_get_temperature_8 r = 127) ∧
    (-6400 ≤ r → r < 6350 →
      mesh_sensor_get_temperature_8 r = Int.tdiv r 50 ∧
      -128 ≤ Int.tdiv r 50 ∧ Int.tdiv r 50 ≤ 126 ∧
      (0 ≤ r → 50 * mesh_sensor_get_temperature_8 r ≤ r ∧
        r < 50 * mesh_sensor_get_temperature_8 r + 50) ∧
      (r ≤ 0 → 50 * mesh_sensor_get_temperature_8 r - 50 < r ∧
        r ≤ 50 * mesh_sensor_get_temperature_8 r)) ∧
    mesh_sensor_get_temperature_8 (-6400) = -128 ∧
    mesh_sensor_get_temperature_8 6349 = 126 ∧
    mesh_sensor_get_temperature_8 6350 = 127 ∧
    mesh_sensor_get_temperature_8 0 = 0 ∧
    mesh_sensor_get_temperature_8 (-49) = 0 ∧
    mesh_sensor_get_temperature_8 (-51) = -1 := by
  refine ⟨?_, ?_, ?_, by decide, by decide, by decide, by decide, by decide, by decide⟩
  · intro h
    simp only [mesh_sensor_get_temperature_8, h, if_true]
    decide
  · intro h
    have h1 : ¬ r < -6400 := by omega
    simp only [mesh_sensor_get_temperature_8, h1, if_false, ge_iff_le, h, if_true]
    decide
  · intro h1 h2
    have h3 : ¬ r < -6400 := by omega
    have h4 : ¬ r ≥ 6350 := by omega
    simp only [mesh_sensor_get_temperature_8, h3, h4, if_false, i8]
    rw [tdiv_fifty]
    split <;> omega


/-- The flag of the native delta test: with the minimum interval passed, the period test
not firing, unit (non-percentage) triggers and both deltas at most `2^31 - 129`,
for every sample and every signed 8-bit published value the callback returns,
publishes whenever an enabled delta is reached
(`sample ≥ published + delta_up` or `sample ≤ published - delta_down`), and,
when a delta is configured and the fast period is zero, publishes only then. -/
theorem native_delta_flag (s : State) (now : Nat) (temp_celsius_100 : Int)
    (hfloor : s.cadence.min_interval ≤ u32_sub now s.mesh_sensor_pub_time)
    (hperiod : s.mesh_sensor_publish_period = 0 ∨
      u32_sub now s.mesh_sensor_pub_time < s.mesh_sensor_publish_period)
    (hnative : s.cadence.trigger_type_percentage = false)
    (hup : s.cadence.trigger_delta_up ≤ 2147483519)
    (hdown : s.cadence.trigger_delta_down ≤ 2147483519)
    (hpub : -128 ≤ s.mesh_sensor_pub_value ∧ s.mesh_sensor_pub_value ≤ 127) :
    ∃ s' b, mesh_sensor_publish_timer_callback s now temp_celsius_100 = some (s', b) ∧
      (((s.cadence.trigger_delta_up ≠ 0 ∧
            mesh_sensor_get_temperature_8 temp_celsius_100 ≥
              s.mesh_sensor_pub_value + (s.cadence.trigger_delta_up : Int)) ∨
          (s.cadence.trigger_delta_down ≠ 0 ∧
            mesh_sensor_get_temperature_8 temp_celsius_100 ≤
              s.mesh_sensor_pub_value - (s.cadence.trigger_delta_down : Int))) → b = true) ∧
      ((s.cadence.trigger_delta_up ≠ 0 ∨ s.cadence.trigger_delta_down ≠ 0) →
        s.mesh_sensor_fast_publish_period = 0 →
        (b = true ↔
          ((s.cadence.trigger_delta_up ≠ 0 ∧
              mesh_sensor_get_temperature_8 temp_celsius_100 ≥
                s.mesh_sensor_pub_value + (s.cadence.trigger_delta_up : Int)) ∨
            (s.cadence.trigger_delta_down ≠ 0 ∧
              mesh_sensor_get_temperature_8 temp_celsius_100 ≤
                s.mesh_sensor_pub_value - (s.cadence.trigger_delta_down : Int))))) := by
  have hrange := sample_range temp_celsius_100
  have hnat := native_trigger_iff s.cadence (mesh_sensor_get_temperature_8 temp_celsius_100)
    s.mesh_sensor_pub_value hrange hpub hup hdown
  have hp0 : ¬ (s.mesh_sensor_publish_period ≠ 0 ∧
      u32_sub now s.mesh_sensor_pub_time ≥ s.mesh_sensor_publish_period) := by omega
  by_cases hcfg : s.cadence.trigger_delta_up ≠ 0 ∨ s.cadence.trigger_delta_down ≠ 0
  · by_cases hfire : native_trigger s.cadence (mesh_sensor_get_temperature_8 temp_celsius_100)
        s.mesh_sensor_pub_value = true
    · have hb : pub_needed_after s (u32_sub now s.mesh_sensor_pub_time)
          (mesh_sensor_get_temperature_8 temp_celsius_100) = some true := by
        simp [pub_needed_after, hp0, delta_stage, hcfg, hnative, hfire, fast_stage, change_stage]
      refine ⟨_, true, callback_floor_passed s now temp_celsius_100 true hfloor hb, ?_, ?_⟩
      · intro _; rfl
      · intro _ _
        simp only [true_iff]
        exact hnat.mp hfire
    · have hnf : ¬ ((s.cadence.trigger_delta_up ≠ 0 ∧
            mesh_sensor_get_temperature_8 temp_celsius_100 ≥
              s.mesh_sensor_pub_value + (s.cadence.trigger_delta_up : Int)) ∨
          (s.cadence.trigger_delta_down ≠ 0 ∧
            mesh_sensor_get_temperature_8 temp_celsius_100 ≤
              s.mesh_sensor_pub_value - (s.cadence.trigger_delta_down : Int))) :=
        fun hc => hfire (hnat.mpr hc)
      have hd : delta_stage s.cadence (mesh_sensor_get_temperature_8 temp_celsius_100)
          s.mesh_sensor_pub_value false = some false := by
        simp [delta_stage, hcfg, hnative, hfire]
      have hch : ∀ b, change_stage s.cadence s.mesh_sensor_publish_period
          (mesh_sensor_get_temperature_8 temp_celsius_100) s.mesh_sensor_pub_value b = b := by
        intro b
        unfold change_stage
        rw [if_neg]
        omega
      have hb : pub_needed_after s (u32_sub now s.mesh_sensor_pub_time)
          (mesh_sensor_get_temperature_8 temp_celsius_100) =
          some (fast_stage s.cadence s.mesh_sensor_fast_publish_period
            (u32_sub now s.mesh_sensor_pub_time)
            (mesh_sensor_get_temperature_8 temp_celsius_100) false) := by
        simp only [pub_needed_after, hp0, decide_False, hd, hch]
      refine ⟨_, _, callback_floor_passed s now temp_celsius_100 _ hfloor hb, ?_, ?_⟩
      · intro hc; exact absurd hc hnf
      · intro _ hfast
        simp [fast_stage, hfast, hnf]
  · have hup0 : s.cadence.trigger_delta_up = 0 := by omega
    have hdown0 : s.cadence.trigger_delta_down = 0 := by omega
    have hd : delta_stage s.cadence (mesh_sensor_get_temperature_8 temp_celsius_100)
        s.mesh_sensor_pub_value false = some false := by
      simp [delta_stage, hup0, hdown0]
    have hb : pub_needed_after s (u32_sub now s.mesh_sensor_pub_time)
        (mesh_sensor_get_temperature_8 temp_celsius_100) =
        some (change_stage s.cadence s.mesh_sensor_publish_period
          (mesh_sensor_get_temperature_8 temp_celsius_100) s.mesh_sensor_pub_value
          (fast_stage s.cadence s.mesh_sensor_fast_publish_period
            (u32_sub now s.mesh_sensor_pub_time)
            (mesh_sensor_get_temperature_8 temp_celsius_100) false)) := by
      simp only [pub_needed_after, hp0, decide_False, hd]
    refine ⟨_, _, callback_floor_passed s now temp_celsius_100 _ hfloor hb, ?_, ?_⟩
    · intro hc
      rcases hc with hc | hc
      · exact absurd hup0 hc.1
      · exact absurd hdown0 hc.1
    · intro hc; exact absurd hc hcfg


/-- The flag of the percentage delta test: with the minimum interval passed, the period
test not firing, percentage triggers, a zero fast period and a strictly positive
sample, the callback returns; when `trigger_delta_up` is set and the sample is
above the published value it publishes exactly when
`(sample - published) * 10000 / sample > trigger_delta_up`, and when
`trigger_delta_down` is set and the sample is below the published value exactly
when `(published - sample) * 10000 / sample > trigger_delta_down` (integer
division by the current sample, strict comparison). -/
theorem percent_delta_flag (s : State) (now : Nat) (temp_celsius_100 : Int)
    (hfloor : s.cadence.min_interval ≤ u32_sub now s.mesh_sensor_pub_time)
    (hperiod : s.mesh_sensor_publish_period = 0 ∨
      u32_sub now s.mesh_sensor_pub_time < s.mesh_sensor_publish_period)
    (hpercent : s.cadence.trigger_type_percentage = true)
    (hfast : s.mesh_sensor_fast_publish_period = 0)
    (hpos : 0 < mesh_sensor_get_temperature_8 temp_celsius_100)
    (hpub : -128 ≤ s.mesh_sensor_pub_value ∧ s.mesh_sensor_pub_value ≤ 127) :
    ∃ s' b, mesh_sensor_publish_timer_callback s now temp_celsius_100 = some (s', b) ∧
      (s.cadence.trigger_delta_up ≠ 0 →
        mesh_sensor_get_temperature_8 temp_celsius_100 > s.mesh_sensor_pub_value →
        (b = true ↔
          (mesh_sensor_get_temperature_8 temp_celsius_100 - s.mesh_sensor_pub_value) * 10000 /
            mesh_sensor_get_temperature_8 temp_celsius_100 > (s.cadence.trigger_delta_up : Int))) ∧
      (s.cadence.trigger_delta_down ≠ 0 →
        mesh_sensor_get_temperature_8 temp_celsius_100 < s.mesh_sensor_pub_value →
        (b = true ↔
          (s.mesh_sensor_pub_value - mesh_sensor_get_temperature_8 temp_celsius_100) * 10000 /
            mesh_sensor_get_temperature_8 temp_celsius_100 >
              (s.cadence.trigger_delta_down : Int))) := by
  have hrange := sample_range temp_celsius_100
  obtain ⟨fired, hfired, hupc, hdownc⟩ := percent_trigger_pos s.cadence
    (mesh_sensor_get_temperature_8 temp_celsius_100) s.mesh_sensor_pub_value
    ⟨hpos, hrange.2⟩ hpub
  have hb := pub_needed_after_no_period s (u32_sub now s.mesh_sensor_pub_time)
    (mesh_sensor_get_temperature_8 temp_celsius_100) hperiod
  by_cases hcfg : s.cadence.trigger_delta_up ≠ 0 ∨ s.cadence.trigger_delta_down ≠ 0
  · have hd : delta_stage s.cadence (mesh_sensor_get_temperature_8 temp_celsius_100)
        s.mesh_sensor_pub_value false = some fired := by
      simp only [delta_stage, hcfg, hpercent, hfired, and_self, if_true, Bool.true_eq_false,
        if_false]
      cases fired <;> rfl
    rw [hd] at hb
    simp only [hfast, fast_stage_zero, change_stage_configured _ _ _ _ _ hcfg] at hb
    exact ⟨_, fired, callback_floor_passed s now temp_celsius_100 fired hfloor hb, hupc, hdownc⟩
  · have hd : delta_stage s.cadence (mesh_sensor_get_temperature_8 temp_celsius_100)
        s.mesh_sensor_pub_value false = some false := by
      simp only [delta_stage, hcfg, and_false, if_false]
    rw [hd] at hb
    refine ⟨_, _, callback_floor_passed s now temp_celsius_100 _ hfloor hb, ?_, ?_⟩
    · intro h; exact absurd (Or.inl h) hcfg
    · intro h; exact absurd (Or.inr h) hcfg

/-- C8 (division by zero in the percentage trigger): with the minimum interval
passed, the period test not firing, percentage triggers and a sample of zero,
when `trigger_delta_up` is set and the published value is negative, or
`trigger_delta_down` is set and the published value is positive, the callback
executes the division by the zero sample: there is no guard, and the callback
has no defined result. -/
theorem C8_percent_division_by_zero (s : State) (now : Nat) (temp_celsius_100 : Int)
    (hfloor : s.cadence.min_interval ≤ u32_sub now s.mesh_sensor_pub_time)
    (hperiod : s.mesh_sensor_publish_period = 0 ∨
      u32_sub now s.mesh_sensor_pub_time < s.mesh_sensor_publish_period)
    (hpercent : s.cadence.trigger_type_percentage = true)
    (hzero : mesh_sensor_get_temperature_8 temp_celsius_100 = 0)
    (hcase : (s.cadence.trigger_delta_up ≠ 0 ∧ s.mesh_sensor_pub_value < 0) ∨
      (s.cadence.trigger_delta_down ≠ 0 ∧ 0 < s.mesh_sensor_pub_value)) :
    mesh_sensor_publish_timer_callback s now temp_celsius_100 = none := by
  have hcfg : s.cadence.trigger_delta_up ≠ 0 ∨ s.cadence.trigger_delta_down ≠ 0 := by
    rcases hcase with h | h
    · exact Or.inl h.1
    · exact Or.inr h.1
  have hu0 : u32 0 = 0 := by decide
  have hpt : percent_trigger s.cadence 0 s.mesh_sensor_pub_value = none := by
    unfold percent_trigger
    rcases hcase with h | h
    · rw [if_pos ⟨h.1, h.2⟩, hu0]
      simp [u32_div]
    · have h1 : ¬ (s.cadence.trigger_delta_up ≠ 0 ∧ (0 : Int) > s.mesh_sensor_pub_value) := by
        omega
      rw [if_neg h1, if_pos ⟨h.1, h.2⟩, hu0]
      simp [u32_div]
  have hd : delta_stage s.cadence 0 s.mesh_sensor_pub_value false = none := by
    simp only [delta_stage, hcfg, hpercent, hpt, and_self, if_true, Bool.true_eq_false, if_false]
  have hb := pub_needed_after_no_period s (u32_sub now s.mesh_sensor_pub_time)
    (mesh_sensor_get_temperature_8 temp_celsius_100) hperiod
  rw [hzero, hd] at hb
  rw [← hzero] at hb
  exact callback_undefined s now temp_celsius_100 hfloor hb


/-- The flag of the fast window test: with the minimum interval passed, a non-zero publish
period that has not elapsed, no delta trigger firing, a non-zero fast period
that has elapsed and window bounds in 0..127, the callback returns and, for
every sample (negative and saturation codes included), publishes exactly when
`low < sample ≤ high` if `high > low`, when `sample > low` or `sample < high` if
`high < low`, and when `sample = low` if `high = low`. -/
theorem fast_window_flag (s : State) (now : Nat) (temp_celsius_100 : Int)
    (hfloor : s.cadence.min_interval ≤ u32_sub now s.mesh_sensor_pub_time)
    (hperiod : s.mesh_sensor_publish_period ≠ 0)
    (hnot_elapsed : u32_sub now s.mesh_sensor_pub_time < s.mesh_sensor_publish_period)
    (hdelta : delta_stage s.cadence (mesh_sensor_get_temperature_8 temp_celsius_100)
      s.mesh_sensor_pub_value false = some false)
    (hfast : s.mesh_sensor_fast_publish_period ≠ 0)
    (hfast_elapsed : s.mesh_sensor_fast_publish_period ≤ u32_sub now s.mesh_sensor_pub_time)
    (hlow : s.cadence.fast_cadence_low ≤ 127) (hhigh : s.cadence.fast_cadence_high ≤ 127) :
    ∃ s' b, mesh_sensor_publish_timer_callback s now temp_celsius_100 = some (s', b) ∧
      (b = true ↔
        ((s.cadence.fast_cadence_high > s.cadence.fast_cadence_low ∧
            (s.cadence.fast_cadence_low : Int) < mesh_sensor_get_temperature_8 temp_celsius_100 ∧
            mesh_sensor_get_temperature_8 temp_celsius_100 ≤ (s.cadence.fast_cadence_high : Int)) ∨
          (s.cadence.fast_cadence_high < s.cadence.fast_cadence_low ∧
            (mesh_sensor_get_temperature_8 temp_celsius_100 > (s.cadence.fast_cadence_low : Int) ∨
              mesh_sensor_get_temperature_8 temp_celsius_100 <
                (s.cadence.fast_cadence_high : Int))) ∨
          (s.cadence.fast_cadence_high = s.cadence.fast_cadence_low ∧
            mesh_sensor_get_temperature_8 temp_celsius_100 =
              (s.cadence.fast_cadence_low : Int)))) := by
  have hb := pub_needed_after_no_period s (u32_sub now s.mesh_sensor_pub_time)
    (mesh_sensor_get_temperature_8 temp_celsius_100) (Or.inr hnot_elapsed)
  rw [hdelta] at hb
  simp only [change_stage_period _ _ _ _ _ hperiod] at hb
  exact ⟨_, _, callback_floor_passed s now temp_celsius_100 _ hfloor hb,
    fast_window_iff s.cadence _ _ _ (sample_range temp_celsius_100) hlow hhigh hfast
      hfast_elapsed⟩

/-- The flag of the change detection test: with the minimum interval passed, no publish
period, both trigger deltas zero and a zero fast period, the callback returns
and publishes exactly when the sample differs from the published value. -/
theorem change_detection_flag (s : State) (now : Nat) (temp_celsius_100 : Int)
    (hfloor : s.cadence.min_interval ≤ u32_sub now s.mesh_sensor_pub_time)
    (hperiod : s.mesh_sensor_publish_period = 0)
    (hup : s.cadence.trigger_delta_up = 0) (hdown : s.cadence.trigger_delta_down = 0)
    (hfast : s.mesh_sensor_fast_publish_period = 0) :
    ∃ s' b, mesh_sensor_publish_timer_callback s now temp_celsius_100 = some (s', b) ∧
      (b = true ↔ mesh_sensor_get_temperature_8 temp_celsius_100 ≠ s.mesh_sensor_pub_value) := by
  have hb := pub_needed_after_no_period s (u32_sub now s.mesh_sensor_pub_time)
    (mesh_sensor_get_temperature_8 temp_celsius_100) (Or.inl hperiod)
  have hd : delta_stage s.cadence (mesh_sensor_get_temperature_8 temp_celsius_100)
      s.mesh_sensor_pub_value false = some false := by
    simp [delta_stage, hup, hdown]
  rw [hd] at hb
  simp only [hfast, fast_stage_zero] at hb
  refine ⟨_, _, callback_floor_passed s now temp_celsius_100 _ hfloor hb, ?_⟩
  simp [change_stage, hperiod, hup, hdown]


/-- Division by zero at a concrete state: published value -10, upward percentage trigger, sample 0. -/
theorem C8_percent_division_by_zero_witness :
    mesh_sensor_get_temperature_8 0 = 0 ∧
    (example_percent (-10)).cadence.trigger_delta_up ≠ 0 ∧
    (example_percent (-10)).mesh_sensor_pub_value < 0 ∧
    mesh_sensor_publish_timer_callback (example_percent (-10)) 6000 0 = none :=
  ⟨by decide, by decide, by decide,
    C8_percent_division_by_zero (example_percent (-10)) 6000 0 (by decide) (by decide)
      (by decide) (by decide) (by decide)⟩

/-- C11 (next timeout without a publish period): when the publish period is 0,
`mesh_sensor_server_restart_timer` starts the timer with the smaller of the
cadence minimum interval and `mesh_sensor_measure_min_interval`, whatever the
divisor, the deltas and the window are, and writes no other variable. -/
theorem C11_timeout_without_period (s : State) (hperiod : s.mesh_sensor_publish_period = 0) :
    (mesh_sensor_server_restart_timer s).mesh_sensor_cadence_timer =
        some (min s.cadence.min_interval mesh_sensor_measure_min_interval) ∧
      mesh_sensor_server_restart_timer s =
        { s with
          mesh_sensor_cadence_timer :=
            some (min s.cadence.min_interval mesh_sensor_measure_min_interval) } := by
  have hmin : (if s.cadence.min_interval < mesh_sensor_measure_min_interval then
      s.cadence.min_interval else mesh_sensor_measure_min_interval) =
      min s.cadence.min_interval mesh_sensor_measure_min_interval := by
    split <;> omega
  unfold mesh_sensor_server_restart_timer
  simp only [hperiod, if_true, hmin, and_self]

/-- With no period, the default minimum interval 4096 and the measurement
interval 3000, the timer is started with 3000. -/
theorem C11_timeout_without_period_witness :
    example_change.cadence.min_interval = 4096 ∧ mesh_sensor_measure_min_interval = 3000 ∧
    (mesh_sensor_server_restart_timer example_change).mesh_sensor_cadence_timer = some 3000 :=
  ⟨by decide, by decide, (C11_timeout_without_period example_change (by decide)).1⟩

/-- C12 (next timeout with a publish period): for a non-zero publish period the
timer is started with the timeout of the specification whenever the divisor is
at most 1 or the quotient period / divisor is non-zero; but when the divisor is
above 1 and exceeds the period, the quotient 0 is taken as the timeout (and as
the fast period), where the specification keeps the period. -/
theorem C12_timeout_with_period (s : State) (hperiod : s.mesh_sensor_publish_period ≠ 0) :
    ((s.cadence.fast_cadence_period_divisor ≤ 1 ∨
        s.cadence.fast_cadence_period_divisor ≤ s.mesh_sensor_publish_period) →
      (mesh_sensor_server_restart_timer s).mesh_sensor_cadence_timer =
        some (spec_next_timeout s.cadence s.mesh_sensor_publish_period)) ∧
    (1 < s.cadence.fast_cadence_period_divisor →
      s.mesh_sensor_publish_period < s.cadence.fast_cadence_period_divisor →
      (mesh_sensor_server_restart_timer s).mesh_sensor_cadence_timer = some 0 ∧
      (mesh_sensor_server_restart_timer s).mesh_sensor_fast_publish_period = 0 ∧
      (s.cadence.trigger_delta_up = 0 ∧ s.cadence.trigger_delta_down = 0 →
        spec_next_timeout s.cadence s.mesh_sensor_publish_period =
          s.mesh_sensor_publish_period)) := by
  constructor
  · intro hd
    unfold mesh_sensor_server_restart_timer spec_next_timeout
    simp only [hperiod, if_false]
    by_cases h1 : s.cadence.fast_cadence_period_divisor ≤ 1
    · have h2 : ¬ s.cadence.fast_cadence_period_divisor > 1 := by omega
      simp only [h1, h2, if_true, if_false, ne_eq, not_true_eq_false]
      by_cases h3 : s.cadence.min_interval < s.mesh_sensor_publish_period ∧
          (s.cadence.trigger_delta_up ≠ 0 ∨ s.cadence.trigger_delta_down ≠ 0)
      · rw [if_pos h3, if_pos ⟨h3.2, h3.1⟩]
      · rw [if_neg h3, if_neg (fun h => h3 ⟨h.2, h.1⟩)]
    · have h2 : s.cadence.fast_cadence_period_divisor > 1 := by omega
      have hle : s.cadence.fast_cadence_period_divisor ≤ s.mesh_sensor_publish_period := by
        omega
      have hq : s.mesh_sensor_publish_period / s.cadence.fast_cadence_period_divisor ≠ 0 := by
        have := Nat.div_pos hle (by omega : 0 < s.cadence.fast_cadence_period_divisor)
        omega
      simp only [h1, h2, if_true, if_false, ne_eq, hq, not_false_eq_true]
      by_cases h3 : s.cadence.min_interval <
            s.mesh_sensor_publish_period / s.cadence.fast_cadence_period_divisor ∧
          (s.cadence.trigger_delta_up ≠ 0 ∨ s.cadence.trigger_delta_down ≠ 0)
      · rw [if_pos h3, if_pos ⟨h3.2, h3.1⟩]
      · rw [if_neg h3, if_neg (fun h => h3 ⟨h.2, h.1⟩)]
  · intro h1 hlt
    have hq : s.mesh_sensor_publish_period / s.cadence.fast_cadence_period_divisor = 0 :=
      Nat.div_eq_of_lt hlt
    have h2 : ¬ s.cadence.fast_cadence_period_divisor ≤ 1 := by omega
    refine ⟨?_, ?_, ?_⟩
    · unfold mesh_sensor_server_restart_timer
      simp [hperiod, h1, hq]
    · unfold mesh_sensor_server_restart_timer
      simp [hperiod, h1, hq]
    · intro h0
      unfold spec_next_timeout
      simp [h2, hq, h0.1, h0.2]

/-- With a period of 100 ms and the divisor 128 the timer is started with 0 and
the fast period is 0, where the timeout of the specification is 100. -/
theorem C12_timeout_with_period_witness :
    example_small_period.mesh_sensor_publish_period = 100 ∧
    example_small_period.cadence.fast_cadence_period_divisor = 128 ∧
    (mesh_sensor_server_restart_timer example_small_period).mesh_sensor_cadence_timer = some 0 ∧
    (mesh_sensor_server_restart_timer example_small_period).mesh_sensor_fast_publish_period = 0 ∧
    spec_next_timeout example_small_period.cadence 100 = 100 :=
  ⟨by decide, by decide,
    ((C12_timeout_with_period example_small_period (by decide)).2 (by decide) (by decide)).1,
    ((C12_timeout_with_period example_small_period (by decide)).2 (by decide) (by decide)).2.1,
    by decide⟩


/-- C13 (fast period after a configuration change): an accepted period change
to a non-zero period, and a cadence change while the period is non-zero, leave
the fast period equal to the value derived from the current period and divisor.
But a period change to 0, and a cadence change while the period is 0, do not
write the fast period: it keeps its former value.  In the reachable state
`example_configured` (period 10000, divisor 2, fast period 5000) a period change
to 0 leaves the fast period at 5000, where the derived value is 0. -/
theorem C13_fast_period_after_change (k : SdkIds) (s : State) (c : Cadence) (period : Nat) :
    (period ≠ 0 →
      (mesh_app_notify_period_set k s MESH_TEMPERATURE_SENSOR_INDEX k.MESH_COMPANY_ID_BT_SIG
        k.WICED_BT_MESH_CORE_MODEL_ID_SENSOR_SRV period).1.mesh_sensor_fast_publish_period =
          derived_fast_period s.cadence period) ∧
    (s.mesh_sensor_publish_period ≠ 0 →
      (step k s (Op.cadence_set MESH_SENSOR_SERVER_ELEMENT_INDEX c)).map
        (fun s' => s'.mesh_sensor_fast_publish_period) =
          some (derived_fast_period c s.mesh_sensor_publish_period)) ∧
    (mesh_app_notify_period_set k s MESH_TEMPERATURE_SENSOR_INDEX k.MESH_COMPANY_ID_BT_SIG
        k.WICED_BT_MESH_CORE_MODEL_ID_SENSOR_SRV 0).2 = true ∧
    (mesh_app_notify_period_set k s MESH_TEMPERATURE_SENSOR_INDEX k.MESH_COMPANY_ID_BT_SIG
        k.WICED_BT_MESH_CORE_MODEL_ID_SENSOR_SRV 0).1.mesh_sensor_publish_period = 0 ∧
    (mesh_app_notify_period_set k s MESH_TEMPERATURE_SENSOR_INDEX k.MESH_COMPANY_ID_BT_SIG
        k.WICED_BT_MESH_CORE_MODEL_ID_SENSOR_SRV 0).1.mesh_sensor_fast_publish_period =
          s.mesh_sensor_fast_publish_period ∧
    (s.mesh_sensor_publish_period = 0 →
      (step k s (Op.cadence_set MESH_SENSOR_SERVER_ELEMENT_INDEX c)).map
        (fun s' => s'.mesh_sensor_fast_publish_period) =
          some s.mesh_sensor_fast_publish_period) ∧
    Reachable example_ids example_configured ∧
    (mesh_app_notify_period_set example_ids example_configured 0 65535 4352
        0).1.mesh_sensor_fast_publish_period = 5000 ∧
    derived_fast_period example_configured.cadence 0 = 0 := by
  refine ⟨?_, ?_, ?_, ?_, ?_, ?_, example_configured_reachable, by decide, by decide⟩
  · intro hp
    simp [mesh_app_notify_period_set, mesh_sensor_server_restart_timer, hp, derived_fast_period]
  · intro hp
    simp [step, mesh_sensor_server_config_change_handler,
      mesh_sensor_server_process_cadence_changed, mesh_sensor_server_restart_timer, hp,
      derived_fast_period]
  · simp [mesh_app_notify_period_set]
  · simp [mesh_app_notify_period_set]
  · simp [mesh_app_notify_period_set, mesh_sensor_server_restart_timer]
  · intro hp
    simp [step, mesh_sensor_server_config_change_handler,
      mesh_sensor_server_process_cadence_changed, mesh_sensor_server_restart_timer, hp]

/-- C14 (publish period change): `mesh_app_notify_period_set` returns true
exactly for element index 0, the Bluetooth SIG company identifier and the sensor
server model identifier; then the new state is the timer restart applied to the
state with the new period, so the period is `period` and the timer runs with the
timeout computed from it; otherwise it returns false and the state is unchanged. -/
theorem C14_period_set (k : SdkIds) (s : State) (element_idx company_id model_id period : Nat) :
    ((mesh_app_notify_period_set k s element_idx company_id model_id period).2 = true ↔
      (element_idx = MESH_TEMPERATURE_SENSOR_INDEX ∧ company_id = k.MESH_COMPANY_ID_BT_SIG ∧
        model_id = k.WICED_BT_MESH_CORE_MODEL_ID_SENSOR_SRV)) ∧
    ((mesh_app_notify_period_set k s element_idx company_id model_id period).2 = true →
      (mesh_app_notify_period_set k s element_idx company_id model_id period).1 =
        mesh_sensor_server_restart_timer { s with mesh_sensor_publish_period := period } ∧
      (mesh_app_notify_period_set k s element_idx company_id model_id
        period).1.mesh_sensor_publish_period = period ∧
      (mesh_app_notify_period_set k s element_idx company_id model_id
        period).1.mesh_sensor_cadence_timer =
          (mesh_sensor_server_restart_timer
            { s with mesh_sensor_publish_period := period }).mesh_sensor_cadence_timer ∧
      (mesh_app_notify_period_set k s element_idx company_id model_id
        period).1.mesh_sensor_pub_value = s.mesh_sensor_pub_value ∧
      (mesh_app_notify_period_set k s element_idx company_id model_id
        period).1.mesh_sensor_pub_time = s.mesh_sensor_pub_time ∧
      (mesh_app_notify_period_set k s element_idx company_id model_id
        period).1.sensor_server_data = s.sensor_server_data) ∧
    ((mesh_app_notify_period_set k s element_idx company_id model_id period).2 = false →
      (mesh_app_notify_period_set k s element_idx company_id model_id period).1 = s) := by
  unfold mesh_app_notify_period_set
  by_cases h : element_idx ≠ MESH_TEMPERATURE_SENSOR_INDEX ∨
      company_id ≠ k.MESH_COMPANY_ID_BT_SIG ∨
      model_id ≠ k.WICED_BT_MESH_CORE_MODEL_ID_SENSOR_SRV
  · rw [if_pos h]
    refine ⟨?_, ?_, ?_⟩
    · constructor
      · intro hc; exact absurd hc (by simp)
      · intro hc
        rcases h with h | h | h
        · exact absurd hc.1 h
        · exact absurd hc.2.1 h
        · exact absurd hc.2.2 h
    · intro hc; exact absurd hc (by simp)
    · intro _; rfl
  · rw [if_neg h]
    refine ⟨?_, ?_, ?_⟩
    · constructor
      · intro _
        refine ⟨?_, ?_, ?_⟩
        · exact Classical.not_not.mp (fun hc => h (Or.inl hc))
        · exact Classical.not_not.mp (fun hc => h (Or.inr (Or.inl hc)))
        · exact Classical.not_not.mp (fun hc => h (Or.inr (Or.inr hc)))
      · intro _; rfl
    · intro _
      simp
    · intro hc; exact absurd hc (by simp)

/-- The claim C16 as stated fails: with no publish period and a minimum
interval of one second the timer is started with 1000, below the measurement
interval 3000. -/
theorem C16_counterexample :
    ¬ (∀ s : State, s.mesh_sensor_publish_period = 0 →
      ∀ t, (mesh_sensor_server_restart_timer s).mesh_sensor_cadence_timer = some t →
        mesh_sensor_measure_min_interval ≤ t) := by
  intro h
  have h1 := h example_short_interval (by decide) 1000 (by decide)
  exact absurd h1 (by decide)

/-- C16 (amended): when the publish period is 0 the timer is started with a
timeout that is never above `mesh_sensor_measure_min_interval` (3000 ms) nor
above the cadence minimum interval; it equals the measurement interval exactly
when the minimum interval is not below it.  The measurement interval bounds the
polling interval from above, not from below. -/
theorem C16_measure_interval_upper_bound (s : State)
    (hperiod : s.mesh_sensor_publish_period = 0) :
    ∃ t, (mesh_sensor_server_restart_timer s).mesh_sensor_cadence_timer = some t ∧
      t ≤ mesh_sensor_measure_min_interval ∧ t ≤ s.cadence.min_interval ∧
      (t = mesh_sensor_measure_min_interval ↔
        mesh_sensor_measure_min_interval ≤ s.cadence.min_interval) ∧
      (s.cadence.min_interval < mesh_sensor_measure_min_interval → t = s.cadence.min_interval) := by
  unfold mesh_sensor_server_restart_timer
  simp only [hperiod, if_true]
  by_cases h : s.cadence.min_interval < mesh_sensor_measure_min_interval
  · rw [if_pos h]
    exact ⟨_, rfl, by omega, by omega, by omega, fun _ => rfl⟩
  · rw [if_neg h]
    exact ⟨_, rfl, by omega, by omega, by omega, fun hc => absurd hc h⟩

/-- With no period and a minimum interval of one second the timeout is 1000;
with the default minimum interval 4096 it is 3000. -/
theorem C16_measure_interval_upper_bound_witness :
    (∃ t, (mesh_sensor_server_restart_timer example_short_interval).mesh_sensor_cadence_timer =
        some t ∧
      t ≤ mesh_sensor_measure_min_interval ∧ t ≤ example_short_interval.cadence.min_interval ∧
      (t = mesh_sensor_measure_min_interval ↔
        mesh_sensor_measure_min_interval ≤ example_short_interval.cadence.min_interval) ∧
      (example_short_interval.cadence.min_interval < mesh_sensor_measure_min_interval →
        t = example_short_interval.cadence.min_interval)) ∧
    (mesh_sensor_server_restart_timer example_short_interval).mesh_sensor_cadence_timer =
      some 1000 ∧
    (mesh_sensor_server_restart_timer example_change).mesh_sensor_cadence_timer = some 3000 :=
  ⟨C16_measure_interval_upper_bound example_short_interval (by decide), by decide, by decide⟩


/-- The claim C15 as stated fails: in `example_delta_window` at tick 6500 with
the sample 41 the minimum interval has passed, the period has not elapsed, a
delta trigger is configured and its test does not fire, and yet the callback
publishes, through the fast window. -/
theorem C15_counterexample :
    ¬ (∀ (s : State) (now : Nat) (temp_celsius_100 : Int),
      s.cadence.min_interval ≤ u32_sub now s.mesh_sensor_pub_time →
      (s.mesh_sensor_publish_period = 0 ∨
        u32_sub now s.mesh_sensor_pub_time < s.mesh_sensor_publish_period) →
      (s.cadence.trigger_delta_up ≠ 0 ∨ s.cadence.trigger_delta_down ≠ 0) →
      delta_stage s.cadence (mesh_sensor_get_temperature_8 temp_celsius_100)
        s.mesh_sensor_pub_value false = some false →
      (mesh_sensor_publish_timer_callback s now temp_celsius_100).map Prod.snd = some false) := by
  intro h
  have h1 := h example_delta_window 6500 2050 (by decide) (by decide) (by decide) (by decide)
  exact absurd h1 (by decide)

/-- C15 (amended): the decision blocks run one after the other, each guarded by
`!pub_needed`.  With the minimum interval passed, the period test not firing and
a delta trigger configured, the callback publishes exactly when the delta test
fires or the fast period is non-zero, has elapsed and the sample passes the fast
window test; so a delta test that does not fire does not end the decision. -/
theorem C15_delta_then_fast_window (s : State) (now : Nat) (temp_celsius_100 : Int) (d : Bool)
    (hfloor : s.cadence.min_interval ≤ u32_sub now s.mesh_sensor_pub_time)
    (hperiod : s.mesh_sensor_publish_period = 0 ∨
      u32_sub now s.mesh_sensor_pub_time < s.mesh_sensor_publish_period)
    (hcfg : s.cadence.trigger_delta_up ≠ 0 ∨ s.cadence.trigger_delta_down ≠ 0)
    (hdelta : delta_stage s.cadence (mesh_sensor_get_temperature_8 temp_celsius_100)
      s.mesh_sensor_pub_value false = some d) :
    ∃ s' b, mesh_sensor_publish_timer_callback s now temp_celsius_100 = some (s', b) ∧
      (b = true ↔
        (d = true ∨
          (s.mesh_sensor_fast_publish_period ≠ 0 ∧
            s.mesh_sensor_fast_publish_period ≤ u32_sub now s.mesh_sensor_pub_time ∧
            fast_window_test s.cadence (mesh_sensor_get_temperature_8 temp_celsius_100)))) := by
  have hb := pub_needed_after_no_period s (u32_sub now s.mesh_sensor_pub_time)
    (mesh_sensor_get_temperature_8 temp_celsius_100) hperiod
  rw [hdelta] at hb
  simp only [change_stage_configured _ _ _ _ _ hcfg] at hb
  exact ⟨_, _, callback_floor_passed s now temp_celsius_100 _ hfloor hb, fast_stage_iff _ _ _ _ _⟩

/-- In `example_delta_window` the delta test does not fire for the sample 41,
and the callback publishes at tick 6500 (fast period elapsed, sample inside the
window 10..50) but not for the sample 5 outside the window. -/
theorem C15_delta_then_fast_window_witness :
    delta_stage example_delta_window.cadence (mesh_sensor_get_temperature_8 2050)
      example_delta_window.mesh_sensor_pub_value false = some false ∧
    (mesh_sensor_publish_timer_callback example_delta_window 6500 2050).map Prod.snd =
      some true ∧
    (mesh_sensor_publish_timer_callback example_delta_window 6500 250).map Prod.snd =
      some false := by
  refine ⟨by decide, ?_, ?_⟩
  · obtain ⟨s', b, hcb, hiff⟩ := C15_delta_then_fast_window example_delta_window 6500 2050 false
      (by decide) (by decide) (by decide) (by decide)
    rw [hcb, hiff.mpr (Or.inr (by unfold fast_window_test; decide))]
    rfl
  · obtain ⟨s', b, hcb, hiff⟩ := C15_delta_then_fast_window example_delta_window 6500 250 false
      (by decide) (by decide) (by decide) (by decide)
    have hb : b = false := by
      cases b with
      | false => rfl
      | true => exact absurd (hiff.mp rfl) (by unfold fast_window_test; decide)
    rw [hcb, hb]
    rfl

/-- C17 (the decision is a disjunction): whenever the sample is non-zero or the
callback reaches no division of the percentage test, the callback returns, and
it publishes exactly when the minimum interval has passed and at least one of
the four triggers holds: period elapsed, delta trigger fires, fast window after
the fast period, or value change with no period and no deltas. -/
theorem C17_decision_disjunction (s : State) (now : Nat) (temp_celsius_100 : Int)
    (hdef : mesh_sensor_get_temperature_8 temp_celsius_100 ≠ 0 ∨
      ¬ percent_division_reached s (u32_sub now s.mesh_sensor_pub_time)
        (mesh_sensor_get_temperature_8 temp_celsius_100)) :
    ∃ s' b, mesh_sensor_publish_timer_callback s now temp_celsius_100 = some (s', b) ∧
      (b = true ↔ decision_disjunction s (u32_sub now s.mesh_sensor_pub_time)
        (mesh_sensor_get_temperature_8 temp_celsius_100)) := by
  by_cases hf : u32_sub now s.mesh_sensor_pub_time < s.cadence.min_interval
  · refine ⟨_, false, callback_below_floor s now temp_celsius_100 hf, ?_⟩
    simp only [Bool.false_eq_true, false_iff, decision_disjunction]
    intro hc
    omega
  · have hfloor : s.cadence.min_interval ≤ u32_sub now s.mesh_sensor_pub_time := by omega
    by_cases ha : s.mesh_sensor_publish_period ≠ 0 ∧
        s.mesh_sensor_publish_period ≤ u32_sub now s.mesh_sensor_pub_time
    · have hb : pub_needed_after s (u32_sub now s.mesh_sensor_pub_time)
          (mesh_sensor_get_temperature_8 temp_celsius_100) = some true := by
        simp [pub_needed_after, ha.1, ha.2, delta_stage, fast_stage, change_stage]
      refine ⟨_, true, callback_floor_passed s now temp_celsius_100 true hfloor hb, ?_⟩
      simp only [true_iff, decision_disjunction]
      exact ⟨hfloor, Or.inl ha⟩
    · have hperiod : s.mesh_sensor_publish_period = 0 ∨
          u32_sub now s.mesh_sensor_pub_time < s.mesh_sensor_publish_period := by omega
      have hdef' : u32 (mesh_sensor_get_temperature_8 temp_celsius_100) ≠ 0 ∨
          ¬ (s.cadence.trigger_type_percentage = true ∧
            ((s.cadence.trigger_delta_up ≠ 0 ∧
                mesh_sensor_get_temperature_8 temp_celsius_100 > s.mesh_sensor_pub_value) ∨
              (s.cadence.trigger_delta_down ≠ 0 ∧
                mesh_sensor_get_temperature_8 temp_celsius_100 < s.mesh_sensor_pub_value))) := by
        rcases hdef with h | h
        · exact Or.inl (u32_sample_ne_zero _ (sample_range temp_celsius_100) h)
        · exact Or.inr (fun hc => h ⟨hfloor, ha, hc.1, hc.2⟩)
      obtain ⟨d, hd, hdiff⟩ := delta_stage_defined s.cadence
        (mesh_sensor_get_temperature_8 temp_celsius_100) s.mesh_sensor_pub_value hdef'
      have hb := pub_needed_after_no_period s (u32_sub now s.mesh_sensor_pub_time)
        (mesh_sensor_get_temperature_8 temp_celsius_100) hperiod
      rw [hd] at hb
      refine ⟨_, _, callback_floor_passed s now temp_celsius_100 _ hfloor hb, ?_⟩
      rw [change_stage_iff, fast_stage_iff, hdiff]
      unfold decision_disjunction
      constructor
      · intro h
        refine ⟨hfloor, ?_⟩
        rcases h with (h | h) | h
        · exact Or.inr (Or.inl h)
        · exact Or.inr (Or.inr (Or.inl h))
        · exact Or.inr (Or.inr (Or.inr h))
      · intro h
        rcases h.2 with h | h | h | h
        · exact absurd h ha
        · exact Or.inl (Or.inl h)
        · exact Or.inl (Or.inr h)
        · exact Or.inr h

/-- The decision at concrete inputs: in `example_window 10 50` the sample 30
publishes through trigger (c); with a percentage trigger, published value 0 and
sample 0 no division is reached and nothing is published. -/
theorem C17_decision_disjunction_witness :
    (mesh_sensor_publish_timer_callback (example_window 10 50) 6500 1500).map Prod.snd =
      some true ∧
    (mesh_sensor_publish_timer_callback (example_percent 0) 6000 0).map Prod.snd =
      some false := by
  refine ⟨?_, ?_⟩
  · obtain ⟨s', b, hcb, hiff⟩ := C17_decision_disjunction (example_window 10 50) 6500 1500
      (Or.inl (by decide))
    have hd : decision_disjunction (example_window 10 50)
        (u32_sub 6500 (example_window 10 50).mesh_sensor_pub_time)
        (mesh_sensor_get_temperature_8 1500) :=
      ⟨by decide, Or.inr (Or.inr (Or.inl ⟨by decide, by decide,
        by unfold fast_window_test; decide⟩))⟩
    rw [hcb, hiff.mpr hd]
    rfl
  · obtain ⟨s', b, hcb, hiff⟩ := C17_decision_disjunction (example_percent 0) 6000 0
      (Or.inr (by unfold percent_division_reached; decide))
    have hb : b = false := by
      cases b with
      | false => rfl
      | true =>
        exact absurd (hiff.mp rfl)
          (by unfold decision_disjunction delta_fires percent_fires fast_window_test; decide)
    rw [hcb, hb]
    rfl


/-- C18 (negative sample in percentage mode): for every negative signed 8-bit
sample and every signed 8-bit published value, the sample converts to an
unsigned divisor of at least `2^32 - 128`, both unsigned quotients
`(difference * 10000) / sample` of the percentage test are 0, the test does not
fire for any deltas, and in percentage mode the delta block leaves `pub_needed`
as it was. -/
theorem C18_negative_sample_percent (c : Cadence) (cur pub : Int)
    (hcur : -128 ≤ cur ∧ cur < 0) (hpub : -128 ≤ pub ∧ pub ≤ 127) :
    4294967168 ≤ u32 cur ∧
    (cur > pub → u32_div (u32_mul (u32 (cur - pub)) 10000) (u32 cur) = some 0) ∧
    (cur < pub → u32_div (u32_mul (u32 (pub - cur)) 10000) (u32 cur) = some 0) ∧
    percent_trigger c cur pub = some false ∧
    (c.trigger_type_percentage = true →
      ∀ pub_needed, delta_stage c cur pub pub_needed = some pub_needed) := by
  have hdiv : 4294967168 ≤ u32 cur := by unfold u32; omega
  have h0 : u32 cur ≠ 0 := by omega
  have hup : cur > pub → u32_div (u32_mul (u32 (cur - pub)) 10000) (u32 cur) = some 0 := by
    intro h
    have e1 : ((u32 (cur - pub) : Nat) : Int) = cur - pub := by rw [u32_cast]; omega
    have hm : u32 (cur - pub) * 10000 < 4294967296 := by omega
    have hn : u32_mul (u32 (cur - pub)) 10000 < u32 cur := by
      unfold u32_mul; rw [Nat.mod_eq_of_lt hm]; omega
    simp only [u32_div, if_neg h0, Nat.div_eq_of_lt hn]
  have hdown : cur < pub → u32_div (u32_mul (u32 (pub - cur)) 10000) (u32 cur) = some 0 := by
    intro h
    have e1 : ((u32 (pub - cur) : Nat) : Int) = pub - cur := by rw [u32_cast]; omega
    have hm : u32 (pub - cur) * 10000 < 4294967296 := by omega
    have hn : u32_mul (u32 (pub - cur)) 10000 < u32 cur := by
      unfold u32_mul; rw [Nat.mod_eq_of_lt hm]; omega
    simp only [u32_div, if_neg h0, Nat.div_eq_of_lt hn]
  have hpt : percent_trigger c cur pub = some false := by
    unfold percent_trigger
    by_cases h1 : c.trigger_delta_up ≠ 0 ∧ cur > pub
    · rw [if_pos h1, hup h1.2]
      simp
    · rw [if_neg h1]
      by_cases h2 : c.trigger_delta_down ≠ 0 ∧ cur < pub
      · rw [if_pos h2, hdown h2.2]
        simp
      · rw [if_neg h2]
  refine ⟨hdiv, hup, hdown, hpt, ?_⟩
  intro hp b
  unfold delta_stage
  split
  · simp [hp, hpt]
  · rfl

/-- A sample of -1 against the published value -128 with a percentage trigger
of 0.01 %: the quotient 1270000 / (2^32 - 1) is 0 and the callback does not
publish. -/
theorem C18_negative_sample_percent_witness :
    u32 (-1) = 4294967295 ∧
    u32_div (u32_mul (u32 (-1 - -128)) 10000) (u32 (-1)) = some 0 ∧
    percent_trigger (example_cadence 1 true 1 1 0 0) (-1) (-128) = some false ∧
    delta_stage (example_cadence 1 true 1 1 0 0) (-1) (-128) false = some false :=
  ⟨by decide,
    (C18_negative_sample_percent (example_cadence 1 true 1 1 0 0) (-1) (-128) (by decide)
      (by decide)).2.1 (by decide),
    (C18_negative_sample_percent (example_cadence 1 true 1 1 0 0) (-1) (-128) (by decide)
      (by decide)).2.2.2.1,
    (C18_negative_sample_percent (example_cadence 1 true 1 1 0 0) (-1) (-128) (by decide)
      (by decide)).2.2.2.2 (by decide) false⟩

/-- C19 (value handed to the sensor model at initialisation): provisioned
initialisation from power up, with the first sample `v` read at tick `t`, sets
the published value to `v` and the publish time to `t` but does not write
`mesh_sensor_sent_value`: the data buffer keeps its initial value 0, that value
is what the sensor model is told to send, and it differs from the published
value for every non-zero first sample.  A publishing timer callback, in
contrast, writes the sample to both and hands it to the sensor model. -/
theorem C19_sent_value_at_init (nvram : Option Cadence) (t : Nat) (temp_celsius_100 : Int) :
    (mesh_app_init (boot_state nvram) true t temp_celsius_100).mesh_sensor_pub_value =
      mesh_sensor_get_temperature_8 temp_celsius_100 ∧
    (mesh_app_init (boot_state nvram) true t temp_celsius_100).mesh_sensor_pub_time = t ∧
    (mesh_app_init (boot_state nvram) true t temp_celsius_100).mesh_sensor_sent_value = 0 ∧
    (mesh_app_init (boot_state nvram) true t temp_celsius_100).sensor_server_data = [0] ∧
    (mesh_sensor_get_temperature_8 temp_celsius_100 ≠ 0 →
      (mesh_app_init (boot_state nvram) true t temp_celsius_100).mesh_sensor_sent_value ≠
        (mesh_app_init (boot_state nvram) true t temp_celsius_100).mesh_sensor_pub_value) ∧
    (∀ (s s' : State) (now : Nat) (r : Int),
      mesh_sensor_publish_timer_callback s now r = some (s', true) →
        s'.mesh_sensor_sent_value = mesh_sensor_get_temperature_8 r ∧
        s'.mesh_sensor_pub_value = mesh_sensor_get_temperature_8 r ∧
        s'.sensor_server_data = s.sensor_server_data ++ [mesh_sensor_get_temperature_8 r]) := by
  refine ⟨?_, ?_, ?_, ?_, ?_, ?_⟩
  · cases nvram <;> simp [mesh_app_init, boot_state]
  · cases nvram <;> simp [mesh_app_init, boot_state]
  · cases nvram <;> simp [mesh_app_init, boot_state]
  · cases nvram <;> simp [mesh_app_init, boot_state]
  · intro h
    cases nvram <;> simp [mesh_app_init, boot_state] <;> exact fun hc => h hc.symm
  · intro s s' now r h
    by_cases hf : u32_sub now s.mesh_sensor_pub_time < s.cadence.min_interval
    · rw [callback_below_floor s now r hf] at h
      simp at h
    · have hf' : s.cadence.min_interval ≤ u32_sub now s.mesh_sensor_pub_time := by omega
      cases hb : pub_needed_after s (u32_sub now s.mesh_sensor_pub_time)
          (mesh_sensor_get_temperature_8 r) with
      | none =>
        rw [callback_undefined s now r hf' hb] at h
        simp at h
      | some b =>
        rw [callback_floor_passed s now r b hf' hb] at h
        simp only [Option.some.injEq, Prod.mk.injEq] at h
        obtain ⟨h1, h2⟩ := h
        subst h2
        subst h1
        simp [send_publication]

/-- Initialisation at tick 1000 with a reading of 20.00 degrees: the published
value is 40, the sent value and the value handed to the sensor model are 0. -/
theorem C19_sent_value_at_init_witness :
    example_init.mesh_sensor_pub_value = 40 ∧ example_init.mesh_sensor_pub_time = 1000 ∧
    example_init.mesh_sensor_sent_value = 0 ∧ example_init.sensor_server_data = [0] ∧
    example_init.mesh_sensor_sent_value ≠ example_init.mesh_sensor_pub_value :=
  ⟨by decide, by decide, (C19_sent_value_at_init none 1000 2000).2.2.1,
    (C19_sent_value_at_init none 1000 2000).2.2.2.1,
    (C19_sent_value_at_init none 1000 2000).2.2.2.2.1 (by decide)⟩


/-- The sampler at concrete readings on either side of each boundary: -64.01
degrees saturates low, -0.75 degrees truncates to -1, 63.50 degrees saturates
high. -/
theorem C5_sampler_mapping_witness :
    mesh_sensor_get_temperature_8 (-6401) = -128 ∧
    mesh_sensor_get_temperature_8 6350 = 127 ∧
    (mesh_sensor_get_temperature_8 (-75) = Int.tdiv (-75) 50 ∧
      -128 ≤ Int.tdiv (-75) 50 ∧ Int.tdiv (-75) 50 ≤ 126) ∧
    mesh_sensor_get_temperature_8 (-75) = -1 :=
  ⟨(C5_sampler_mapping (-6401)).1 (by decide), (C5_sampler_mapping 6350).2.1 (by decide),
    ⟨((C5_sampler_mapping (-75)).2.2.1 (by decide) (by decide)).1,
      ((C5_sampler_mapping (-75)).2.2.1 (by decide) (by decide)).2.1,
      ((C5_sampler_mapping (-75)).2.2.1 (by decide) (by decide)).2.2.1⟩,
    by decide⟩

/-- From `example_configured` (divisor 2): a period change to 20000 gives the
fast period 10000, a period change to 0 leaves it at 5000. -/
theorem C13_fast_period_after_change_witness :
    (mesh_app_notify_period_set example_ids example_configured 0 65535 4352
      20000).1.mesh_sensor_fast_publish_period = derived_fast_period example_configured.cadence
        20000 ∧
    derived_fast_period example_configured.cadence 20000 = 10000 ∧
    (mesh_app_notify_period_set example_ids example_configured 0 65535 4352
      0).1.mesh_sensor_publish_period = 0 ∧
    (mesh_app_notify_period_set example_ids example_configured 0 65535 4352
      0).1.mesh_sensor_fast_publish_period = example_configured.mesh_sensor_fast_publish_period ∧
    example_configured.mesh_sensor_fast_publish_period = 5000 :=
  ⟨(C13_fast_period_after_change example_ids example_configured default_cadence 20000).1
      (by decide),
    by decide,
    (C13_fast_period_after_change example_ids example_configured default_cadence 0).2.2.2.1,
    (C13_fast_period_after_change example_ids example_configured default_cadence 0).2.2.2.2.1,
    by decide⟩

/-- From `example_configured`: a period change to 20000 for the sensor server
model is accepted, stores the period and restarts the timer with 10000; the
same call with another model identifier is refused and changes nothing. -/
theorem C14_period_set_witness :
    (mesh_app_notify_period_set example_ids example_configured 0 65535 4352 20000).2 = true ∧
    (mesh_app_notify_period_set example_ids example_configured 0 65535 4352
      20000).1.mesh_sensor_publish_period = 20000 ∧
    (mesh_app_notify_period_set example_ids example_configured 0 65535 4352
      20000).1.mesh_sensor_cadence_timer = some 10000 ∧
    (mesh_app_notify_period_set example_ids example_configured 0 65535 4353 20000).2 = false ∧
    (mesh_app_notify_period_set example_ids example_configured 0 65535 4353 20000).1 =
      example_configured :=
  ⟨(C14_period_set example_ids example_configured 0 65535 4352 20000).1.mpr
      ⟨by decide, by decide, by decide⟩,
    ((C14_period_set example_ids example_configured 0 65535 4352 20000).2.1 (by decide)).2.1,
    by decide, by decide,
    (C14_period_set example_ids example_configured 0 65535 4353 20000).2.2 (by decide)⟩


/-- C6 (native delta trigger): with the minimum interval passed, the period test
not firing, unit (non-percentage) triggers and both deltas at most `2^31 - 129`,
for every sample and every signed 8-bit published value the callback returns,
publishes whenever an enabled delta is reached
(`sample ≥ published + delta_up` or `sample ≤ published - delta_down`), and,
when a delta is configured and the fast period is zero, publishes only then.
Publishing is the end with `pub_needed` set, where the sample has become the
published and the sent value, the tick count the publish time, and the sample
has been handed to the sensor model; otherwise all four are left as they were. -/
theorem C6_native_delta_trigger (s : State) (now : Nat) (temp_celsius_100 : Int)
    (hfloor : s.cadence.min_interval ≤ u32_sub now s.mesh_sensor_pub_time)
    (hperiod : s.mesh_sensor_publish_period = 0 ∨
      u32_sub now s.mesh_sensor_pub_time < s.mesh_sensor_publish_period)
    (hnative : s.cadence.trigger_type_percentage = false)
    (hup : s.cadence.trigger_delta_up ≤ 2147483519)
    (hdown : s.cadence.trigger_delta_down ≤ 2147483519)
    (hpub : -128 ≤ s.mesh_sensor_pub_value ∧ s.mesh_sensor_pub_value ≤ 127) :
    ∃ s' b, mesh_sensor_publish_timer_callback s now temp_celsius_100 = some (s', b) ∧
      (((s.cadence.trigger_delta_up ≠ 0 ∧
            mesh_sensor_get_temperature_8 temp_celsius_100 ≥
              s.mesh_sensor_pub_value + (s.cadence.trigger_delta_up : Int)) ∨
          (s.cadence.trigger_delta_down ≠ 0 ∧
            mesh_sensor_get_temperature_8 temp_celsius_100 ≤
              s.mesh_sensor_pub_value - (s.cadence.trigger_delta_down : Int))) → b = true) ∧
      ((s.cadence.trigger_delta_up ≠ 0 ∨ s.cadence.trigger_delta_down ≠ 0) →
        s.mesh_sensor_fast_publish_period = 0 →
        (b = true ↔
          ((s.cadence.trigger_delta_up ≠ 0 ∧
              mesh_sensor_get_temperature_8 temp_celsius_100 ≥
                s.mesh_sensor_pub_value + (s.cadence.trigger_delta_up : Int)) ∨
            (s.cadence.trigger_delta_down ≠ 0 ∧
              mesh_sensor_get_temperature_8 temp_celsius_100 ≤
                s.mesh_sensor_pub_value - (s.cadence.trigger_delta_down : Int))))) ∧
      (b = true →
        s'.mesh_sensor_pub_value = mesh_sensor_get_temperature_8 temp_celsius_100 ∧
        s'.mesh_sensor_pub_time = now ∧
        s'.mesh_sensor_sent_value = mesh_sensor_get_temperature_8 temp_celsius_100 ∧
        s'.sensor_server_data =
          s.sensor_server_data ++ [mesh_sensor_get_temperature_8 temp_celsius_100]) ∧
      (b = false →
        s'.mesh_sensor_pub_value = s.mesh_sensor_pub_value ∧
        s'.mesh_sensor_pub_time = s.mesh_sensor_pub_time ∧
        s'.mesh_sensor_sent_value = s.mesh_sensor_sent_value ∧
        s'.sensor_server_data = s.sensor_server_data) := by
  obtain ⟨s', b, hcb, hfires, honly⟩ :=
    native_delta_flag s now temp_celsius_100 hfloor hperiod hnative hup hdown hpub
  have hs := callback_result_state s s' now temp_celsius_100 b hcb
  refine ⟨s', b, hcb, hfires, honly, ?_, ?_⟩
  · intro hb
    subst hb
    rw [hs]
    simp [send_publication]
  · intro hb
    subst hb
    rw [hs]
    simp

/-- Unit triggers of 4 around the published value 40, last published at tick
1000, callback at tick 6000: the sample 44 is published (recorded with the tick
and handed to the sensor model), the sample 43 is not (record and data list
unchanged). -/
theorem C6_native_delta_trigger_witness :
    (∃ s', mesh_sensor_publish_timer_callback example_native 6000 2200 = some (s', true) ∧
      s'.mesh_sensor_pub_value = 44 ∧ s'.mesh_sensor_pub_time = 6000 ∧
      s'.mesh_sensor_sent_value = 44 ∧ s'.sensor_server_data = [44]) ∧
    (∃ s', mesh_sensor_publish_timer_callback example_native 6000 2150 = some (s', false) ∧
      s'.mesh_sensor_pub_value = 40 ∧ s'.mesh_sensor_pub_time = 1000 ∧
      s'.mesh_sensor_sent_value = 40 ∧ s'.sensor_server_data = []) := by
  constructor
  · obtain ⟨s', b, hcb, hfires, _, hpublished, _⟩ := C6_native_delta_trigger example_native
      6000 2200 (by decide) (by decide) (by decide) (by decide) (by decide) (by decide)
    have hb : b = true := hfires (by decide)
    subst hb
    obtain ⟨h1, h2, h3, h4⟩ := hpublished rfl
    exact ⟨s', hcb, by rw [h1]; decide, h2, by rw [h3]; decide, by rw [h4]; decide⟩
  · obtain ⟨s', b, hcb, _, honly, _, hskipped⟩ := C6_native_delta_trigger example_native
      6000 2150 (by decide) (by decide) (by decide) (by decide) (by decide) (by decide)
    have hb : b = false := by
      cases b with
      | false => rfl
      | true => exact absurd ((honly (by decide) (by decide)).mp rfl) (by decide)
    subst hb
    obtain ⟨h1, h2, h3, h4⟩ := hskipped rfl
    exact ⟨s', hcb, by rw [h1]; decide, by rw [h2]; decide, by rw [h3]; decide,
      by rw [h4]; decide⟩

/-- C7 (percentage delta trigger): with the minimum interval passed, the period
test not firing, percentage triggers, a zero fast period and a strictly positive
sample, the callback returns; when `trigger_delta_up` is set and the sample is
above the published value it publishes exactly when
`(sample - published) * 10000 / sample > trigger_delta_up`, and when
`trigger_delta_down` is set and the sample is below the published value exactly
when `(published - sample) * 10000 / sample > trigger_delta_down` (integer
division by the current sample, strict comparison).  Publishing is the end with
`pub_needed` set, where the sample has become the published and the sent value,
the tick count the publish time, and the sample has been handed to the sensor
model; otherwise all four are left as they were. -/
theorem C7_percent_delta_trigger (s : State) (now : Nat) (temp_celsius_100 : Int)
    (hfloor : s.cadence.min_interval ≤ u32_sub now s.mesh_sensor_pub_time)
    (hperiod : s.mesh_sensor_publish_period = 0 ∨
      u32_sub now s.mesh_sensor_pub_time < s.mesh_sensor_publish_period)
    (hpercent : s.cadence.trigger_type_percentage = true)
    (hfast : s.mesh_sensor_fast_publish_period = 0)
    (hpos : 0 < mesh_sensor_get_temperature_8 temp_celsius_100)
    (hpub : -128 ≤ s.mesh_sensor_pub_value ∧ s.mesh_sensor_pub_value ≤ 127) :
    ∃ s' b, mesh_sensor_publish_timer_callback s now temp_celsius_100 = some (s', b) ∧
      (s.cadence.trigger_delta_up ≠ 0 →
        mesh_sensor_get_temperature_8 temp_celsius_100 > s.mesh_sensor_pub_value →
        (b = true ↔
          (mesh_sensor_get_temperature_8 temp_celsius_100 - s.mesh_sensor_pub_value) * 10000 /
            mesh_sensor_get_temperature_8 temp_celsius_100 > (s.cadence.trigger_delta_up : Int))) ∧
      (s.cadence.trigger_delta_down ≠ 0 →
        mesh_sensor_get_temperature_8 temp_celsius_100 < s.mesh_sensor_pub_value →
        (b = true ↔
          (s.mesh_sensor_pub_value - mesh_sensor_get_temperature_8 temp_celsius_100) * 10000 /
            mesh_sensor_get_temperature_8 temp_celsius_100 >
              (s.cadence.trigger_delta_down : Int))) ∧
      (b = true →
        s'.mesh_sensor_pub_value = mesh_sensor_get_temperature_8 temp_celsius_100 ∧
        s'.mesh_sensor_pub_time = now ∧
        s'.mesh_sensor_sent_value = mesh_sensor_get_temperature_8 temp_celsius_100 ∧
        s'.sensor_server_data =
          s.sensor_server_data ++ [mesh_sensor_get_temperature_8 temp_celsius_100]) ∧
      (b = false →
        s'.mesh_sensor_pub_value = s.mesh_sensor_pub_value ∧
        s'.mesh_sensor_pub_time = s.mesh_sensor_pub_time ∧
        s'.mesh_sensor_sent_value = s.mesh_sensor_sent_value ∧
        s'.sensor_server_data = s.sensor_server_data) := by
  obtain ⟨s', b, hcb, hupc, hdownc⟩ :=
    percent_delta_flag s now temp_celsius_100 hfloor hperiod hpercent hfast hpos hpub
  have hs := callback_result_state s s' now temp_celsius_100 b hcb
  refine ⟨s', b, hcb, hupc, hdownc, ?_, ?_⟩
  · intro hb
    subst hb
    rw [hs]
    simp [send_publication]
  · intro hb
    subst hb
    rw [hs]
    simp

/-- Percentage trigger of 5.00 % with published value 40 at tick 1000, callback
at tick 6000: the sample 43 gives 697 and is published (recorded with the tick
and handed to the sensor model), the sample 41 gives 243 and is not (record and
data list unchanged). -/
theorem C7_percent_delta_trigger_witness :
    ((43 - 40) * 10000 / 43 : Int) = 697 ∧ ((41 - 40) * 10000 / 41 : Int) = 243 ∧
    (∃ s', mesh_sensor_publish_timer_callback (example_percent 40) 6000 2150 =
        some (s', true) ∧
      s'.mesh_sensor_pub_value = 43 ∧ s'.mesh_sensor_pub_time = 6000 ∧
      s'.mesh_sensor_sent_value = 43 ∧ s'.sensor_server_data = [43]) ∧
    (∃ s', mesh_sensor_publish_timer_callback (example_percent 40) 6000 2050 =
        some (s', false) ∧
      s'.mesh_sensor_pub_value = 40 ∧ s'.mesh_sensor_pub_time = 1000 ∧
      s'.mesh_sensor_sent_value = 40 ∧ s'.sensor_server_data = []) := by
  refine ⟨by decide, by decide, ?_, ?_⟩
  · obtain ⟨s', b, hcb, hup, _, hpublished, _⟩ := C7_percent_delta_trigger
      (example_percent 40) 6000 2150
      (by decide) (by decide) (by decide) (by decide) (by decide) (by decide)
    have hb : b = true := (hup (by decide) (by decide)).mpr (by decide)
    subst hb
    obtain ⟨h1, h2, h3, h4⟩ := hpublished rfl
    exact ⟨s', hcb, by rw [h1]; decide, h2, by rw [h3]; decide, by rw [h4]; decide⟩
  · obtain ⟨s', b, hcb, hup, _, _, hskipped⟩ := C7_percent_delta_trigger
      (example_percent 40) 6000 2050
      (by decide) (by decide) (by decide) (by decide) (by decide) (by decide)
    have hb : b = false := by
      cases b with
      | false => rfl
      | true => exact absurd ((hup (by decide) (by decide)).mp rfl) (by decide)
    subst hb
    obtain ⟨h1, h2, h3, h4⟩ := hskipped rfl
    exact ⟨s', hcb, by rw [h1]; decide, by rw [h2]; decide, by rw [h3]; decide,
      by rw [h4]; decide⟩

/-- C9 (fast window): with the minimum interval passed, a non-zero publish
period that has not elapsed, no delta trigger firing, a non-zero fast period
that has elapsed and window bounds in 0..127, the callback returns and, for
every sample (negative and saturation codes included), publishes exactly when
`low < sample ≤ high` if `high > low`, when `sample > low` or `sample < high` if
`high < low`, and when `sample = low` if `high = low`.  Publishing is the end
with `pub_needed` set, where the sample has become the published and the sent
value, the tick count the publish time, and the sample has been handed to the
sensor model; otherwise all four are left as they were. -/
theorem C9_fast_window (s : State) (now : Nat) (temp_celsius_100 : Int)
    (hfloor : s.cadence.min_interval ≤ u32_sub now s.mesh_sensor_pub_time)
    (hperiod : s.mesh_sensor_publish_period ≠ 0)
    (hnot_elapsed : u32_sub now s.mesh_sensor_pub_time < s.mesh_sensor_publish_period)
    (hdelta : delta_stage s.cadence (mesh_sensor_get_temperature_8 temp_celsius_100)
      s.mesh_sensor_pub_value false = some false)
    (hfast : s.mesh_sensor_fast_publish_period ≠ 0)
    (hfast_elapsed : s.mesh_sensor_fast_publish_period ≤ u32_sub now s.mesh_sensor_pub_time)
    (hlow : s.cadence.fast_cadence_low ≤ 127) (hhigh : s.cadence.fast_cadence_high ≤ 127) :
    ∃ s' b, mesh_sensor_publish_timer_callback s now temp_celsius_100 = some (s', b) ∧
      (b = true ↔
        ((s.cadence.fast_cadence_high > s.cadence.fast_cadence_low ∧
            (s.cadence.fast_cadence_low : Int) < mesh_sensor_get_temperature_8 temp_celsius_100 ∧
            mesh_sensor_get_temperature_8 temp_celsius_100 ≤ (s.cadence.fast_cadence_high : Int)) ∨
          (s.cadence.fast_cadence_high < s.cadence.fast_cadence_low ∧
            (mesh_sensor_get_temperature_8 temp_celsius_100 > (s.cadence.fast_cadence_low : Int) ∨
              mesh_sensor_get_temperature_8 temp_celsius_100 <
                (s.cadence.fast_cadence_high : Int))) ∨
          (s.cadence.fast_cadence_high = s.cadence.fast_cadence_low ∧
            mesh_sensor_get_temperature_8 temp_celsius_100 =
              (s.cadence.fast_cadence_low : Int)))) ∧
      (b = true →
        s'.mesh_sensor_pub_value = mesh_sensor_get_temperature_8 temp_celsius_100 ∧
        s'.mesh_sensor_pub_time = now ∧
        s'.mesh_sensor_sent_value = mesh_sensor_get_temperature_8 temp_celsius_100 ∧
        s'.sensor_server_data =
          s.sensor_server_data ++ [mesh_sensor_get_temperature_8 temp_celsius_100]) ∧
      (b = false →
        s'.mesh_sensor_pub_value = s.mesh_sensor_pub_value ∧
        s'.mesh_sensor_pub_time = s.mesh_sensor_pub_time ∧
        s'.mesh_sensor_sent_value = s.mesh_sensor_sent_value ∧
        s'.sensor_server_data = s.sensor_server_data) := by
  obtain ⟨s', b, hcb, hiff⟩ := fast_window_flag s now temp_celsius_100 hfloor hperiod
    hnot_elapsed hdelta hfast hfast_elapsed hlow hhigh
  have hs := callback_result_state s s' now temp_celsius_100 b hcb
  refine ⟨s', b, hcb, hiff, ?_, ?_⟩
  · intro hb
    subst hb
    rw [hs]
    simp [send_publication]
  · intro hb
    subst hb
    rw [hs]
    simp

/-- Fast window 10..50, published value 40 at tick 1000, callback at tick 6500:
the sample 30 is published, the sample 5 is not; window 50..10: the sample 60
is published, the sample 30 is not.  Published means recorded with the tick and
handed to the sensor model; not published leaves record and data list
unchanged. -/
theorem C9_fast_window_witness :
    (∃ s', mesh_sensor_publish_timer_callback (example_window 10 50) 6500 1500 =
        some (s', true) ∧
      s'.mesh_sensor_pub_value = 30 ∧ s'.mesh_sensor_pub_time = 6500 ∧
      s'.mesh_sensor_sent_value = 30 ∧ s'.sensor_server_data = [30]) ∧
    (∃ s', mesh_sensor_publish_timer_callback (example_window 10 50) 6500 250 =
        some (s', false) ∧
      s'.mesh_sensor_pub_value = 40 ∧ s'.mesh_sensor_pub_time = 1000 ∧
      s'.mesh_sensor_sent_value = 40 ∧ s'.sensor_server_data = []) ∧
    (∃ s', mesh_sensor_publish_timer_callback (example_window 50 10) 6500 3000 =
        some (s', true) ∧
      s'.mesh_sensor_pub_value = 60 ∧ s'.mesh_sensor_pub_time = 6500 ∧
      s'.mesh_sensor_sent_value = 60 ∧ s'.sensor_server_data = [60]) ∧
    (∃ s', mesh_sensor_publish_timer_callback (example_window 50 10) 6500 1500 =
        some (s', false) ∧
      s'.mesh_sensor_pub_value = 40 ∧ s'.mesh_sensor_pub_time = 1000 ∧
      s'.mesh_sensor_sent_value = 40 ∧ s'.sensor_server_data = []) := by
  refine ⟨?_, ?_, ?_, ?_⟩
  · obtain ⟨s', b, hcb, hiff, hpublished, _⟩ := C9_fast_window (example_window 10 50) 6500 1500
      (by decide) (by decide) (by decide) (by decide) (by decide) (by decide) (by decide)
      (by decide)
    have hb : b = true := hiff.mpr (by decide)
    subst hb
    obtain ⟨h1, h2, h3, h4⟩ := hpublished rfl
    exact ⟨s', hcb, by rw [h1]; decide, h2, by rw [h3]; decide, by rw [h4]; decide⟩
  · obtain ⟨s', b, hcb, hiff, _, hskipped⟩ := C9_fast_window (example_window 10 50) 6500 250
      (by decide) (by decide) (by decide) (by decide) (by decide) (by decide) (by decide)
      (by decide)
    have hb : b = false := by
      cases b with
      | false => rfl
      | true => exact absurd (hiff.mp rfl) (by decide)
    subst hb
    obtain ⟨h1, h2, h3, h4⟩ := hskipped rfl
    exact ⟨s', hcb, by rw [h1]; decide, by rw [h2]; decide, by rw [h3]; decide,
      by rw [h4]; decide⟩
  · obtain ⟨s', b, hcb, hiff, hpublished, _⟩ := C9_fast_window (example_window 50 10) 6500 3000
      (by decide) (by decide) (by decide) (by decide) (by decide) (by decide) (by decide)
      (by decide)
    have hb : b = true := hiff.mpr (by decide)
    subst hb
    obtain ⟨h1, h2, h3, h4⟩ := hpublished rfl
    exact ⟨s', hcb, by rw [h1]; decide, h2, by rw [h3]; decide, by rw [h4]; decide⟩
  · obtain ⟨s', b, hcb, hiff, _, hskipped⟩ := C9_fast_window (example_window 50 10) 6500 1500
      (by decide) (by decide) (by decide) (by decide) (by decide) (by decide) (by decide)
      (by decide)
    have hb : b = false := by
      cases b with
      | false => rfl
      | true => exact absurd (hiff.mp rfl) (by decide)
    subst hb
    obtain ⟨h1, h2, h3, h4⟩ := hskipped rfl
    exact ⟨s', hcb, by rw [h1]; decide, by rw [h2]; decide, by rw [h3]; decide,
      by rw [h4]; decide⟩

/-- C10 (pure change detection): with the minimum interval passed, no publish
period, both trigger deltas zero and a zero fast period, the callback returns
and publishes exactly when the sample differs from the published value.
Publishing is the end with `pub_needed` set, where the sample has become the
published and the sent value, the tick count the publish time, and the sample
has been handed to the sensor model; otherwise all four are left as they were. -/
theorem C10_change_detection (s : State) (now : Nat) (temp_celsius_100 : Int)
    (hfloor : s.cadence.min_interval ≤ u32_sub now s.mesh_sensor_pub_time)
    (hperiod : s.mesh_sensor_publish_period = 0)
    (hup : s.cadence.trigger_delta_up = 0) (hdown : s.cadence.trigger_delta_down = 0)
    (hfast : s.mesh_sensor_fast_publish_period = 0) :
    ∃ s' b, mesh_sensor_publish_timer_callback s now temp_celsius_100 = some (s', b) ∧
      (b = true ↔ mesh_sensor_get_temperature_8 temp_celsius_100 ≠ s.mesh_sensor_pub_value) ∧
      (b = true →
        s'.mesh_sensor_pub_value = mesh_sensor_get_temperature_8 temp_celsius_100 ∧
        s'.mesh_sensor_pub_time = now ∧
        s'.mesh_sensor_sent_value = mesh_sensor_get_temperature_8 temp_celsius_100 ∧
        s'.sensor_server_data =
          s.sensor_server_data ++ [mesh_sensor_get_temperature_8 temp_celsius_100]) ∧
      (b = false →
        s'.mesh_sensor_pub_value = s.mesh_sensor_pub_value ∧
        s'.mesh_sensor_pub_time = s.mesh_sensor_pub_time ∧
        s'.mesh_sensor_sent_value = s.mesh_sensor_sent_value ∧
        s'.sensor_server_data = s.sensor_server_data) := by
  obtain ⟨s', b, hcb, hiff⟩ :=
    change_detection_flag s now temp_celsius_100 hfloor hperiod hup hdown hfast
  have hs := callback_result_state s s' now temp_celsius_100 b hcb
  refine ⟨s', b, hcb, hiff, ?_, ?_⟩
  · intro hb
    subst hb
    rw [hs]
    simp [send_publication]
  · intro hb
    subst hb
    rw [hs]
    simp

/-- Change detection with published value 20 at tick 1000, callback at tick
6000: the sample 21 is published (recorded with the tick and handed to the
sensor model), the sample 20 is not (record and data list unchanged). -/
theorem C10_change_detection_witness :
    (∃ s', mesh_sensor_publish_timer_callback example_change 6000 1050 = some (s', true) ∧
      s'.mesh_sensor_pub_value = 21 ∧ s'.mesh_sensor_pub_time = 6000 ∧
      s'.mesh_sensor_sent_value = 21 ∧ s'.sensor_server_data = [21]) ∧
    (∃ s', mesh_sensor_publish_timer_callback example_change 6000 1000 = some (s', false) ∧
      s'.mesh_sensor_pub_value = 20 ∧ s'.mesh_sensor_pub_time = 1000 ∧
      s'.mesh_sensor_sent_value = 20 ∧ s'.sensor_server_data = []) := by
  constructor
  · obtain ⟨s', b, hcb, hiff, hpublished, _⟩ := C10_change_detection example_change 6000 1050
      (by decide) (by decide) (by decide) (by decide) (by decide)
    have hb : b = true := hiff.mpr (by decide)
    subst hb
    obtain ⟨h1, h2, h3, h4⟩ := hpublished rfl
    exact ⟨s', hcb, by rw [h1]; decide, h2, by rw [h3]; decide, by rw [h4]; decide⟩
  · obtain ⟨s', b, hcb, hiff, _, hskipped⟩ := C10_change_detection example_change 6000 1000
      (by decide) (by decide) (by decide) (by decide) (by decide)
    have hb : b = false := by
      cases b with
      | false => rfl
      | true => exact absurd (hiff.mp rfl) (by decide)
    subst hb
    obtain ⟨h1, h2, h3, h4⟩ := hskipped rfl
    exact ⟨s', hcb, by rw [h1]; decide, by rw [h2]; decide, by rw [h3]; decide,
      by rw [h4]; decide⟩

end SensorTemperature
